import Mathlib

/-!
Verification of the plant-care firmware's coordination layer against its
specification.  Each component is shallowly embedded: C++ `float` values on
which arithmetic is performed are modelled as `ℚ` (all constants involved are
exact decimals and no result lies near a rounding boundary), machine unsigned
arithmetic is modelled as `Nat` with explicit `% 2^32`, and C `int` as `ℤ`.
External collaborators (MD5, the radio, the ADC) are parameters or oracles.
-/

namespace PlantCare

/-- `PlantState` enum from StateManager.h, in declaration order. -/
inductive PlantState
  | HEALTHY
  | NEEDS_WATER
  | NEEDS_LIGHT
  | CRITICAL
  | UNKNOWN
deriving DecidableEq, Repr

/-- The sensor sample record (SensorManager.h / spec §3).  Measured fields are
modelled as exact rationals. -/
structure SensorData where
  soilHumidity : ℚ
  airHumidity : ℚ
  temperature : ℚ
  lightIntensity : ℚ
  timestamp : Nat
  isValid : Bool
deriving DecidableEq, Repr

/-- Classifier threshold configuration (StateManager.h). -/
structure ThresholdConfig where
  moistureLow : ℚ
  moistureCritical : ℚ
  lightLow : ℚ
  lightCritical : ℚ
  temperatureMin : ℚ
  temperatureMax : ℚ
  temperatureOptimalMin : ℚ
  temperatureOptimalMax : ℚ
  isCustomized : Bool
deriving DecidableEq, Repr

/-- `StateManager::resetToDefaultThresholds` (StateManager.cpp): the default
thresholds, with MOISTURE_THRESHOLD = 30 and LIGHT_THRESHOLD = 500 from
config.h. -/
def defaultThresholds : ThresholdConfig :=
  { moistureLow := 30
    moistureCritical := 10
    lightLow := 500
    lightCritical := 100
    temperatureMin := 15
    temperatureMax := 35
    temperatureOptimalMin := 20
    temperatureOptimalMax := 28
    isCustomized := false }

/-- `StateManager::evaluateBasicState` (StateManager.cpp lines 155-185). -/
def evaluateBasicState (th : ThresholdConfig) (data : SensorData) : PlantState :=
  let needsWater := data.soilHumidity < th.moistureLow
  let needsLight := data.lightIntensity < th.lightLow
  let criticalWater := data.soilHumidity < th.moistureCritical
  let criticalLight := data.lightIntensity < th.lightCritical
  let temperatureOK := th.temperatureMin ≤ data.temperature ∧
      data.temperature ≤ th.temperatureMax
  if (criticalWater ∨ criticalLight) ∨ ¬temperatureOK then
    PlantState.CRITICAL
  else if needsWater ∧ needsLight then
    PlantState.CRITICAL
  else if needsWater then
    PlantState.NEEDS_WATER
  else if needsLight then
    PlantState.NEEDS_LIGHT
  else
    PlantState.HEALTHY

/-- The spec's five-step left-to-right state rule (spec §4.C), written from the
spec's words for the refinement comparison with `evaluateBasicState`. -/
def specStateRule (th : ThresholdConfig) (d : SensorData) : PlantState :=
  if d.soilHumidity < th.moistureCritical ∨ d.lightIntensity < th.lightCritical ∨
      ¬(th.temperatureMin ≤ d.temperature ∧ d.temperature ≤ th.temperatureMax) then
    PlantState.CRITICAL
  else if d.soilHumidity < th.moistureLow ∧ d.lightIntensity < th.lightLow then
    PlantState.CRITICAL
  else if d.soilHumidity < th.moistureLow then
    PlantState.NEEDS_WATER
  else if d.lightIntensity < th.lightLow then
    PlantState.NEEDS_LIGHT
  else
    PlantState.HEALTHY

/-- `StateManager::calculateMoistureScore` (StateManager.cpp lines 204-217). -/
def calculateMoistureScore (th : ThresholdConfig) (moisture : ℚ) : ℚ :=
  if moisture ≥ 60 then 100
  else if moisture ≥ th.moistureLow then
    60 + (moisture - th.moistureLow) / (60 - th.moistureLow) * 40
  else if moisture ≥ th.moistureCritical then
    20 + (moisture - th.moistureCritical) / (th.moistureLow - th.moistureCritical) * 40
  else
    moisture / th.moistureCritical * 20

/-- `StateManager::calculateLightScore` (StateManager.cpp lines 222-235). -/
def calculateLightScore (th : ThresholdConfig) (light : ℚ) : ℚ :=
  if light ≥ 2000 then 100
  else if light ≥ th.lightLow then
    60 + (light - th.lightLow) / (2000 - th.lightLow) * 40
  else if light ≥ th.lightCritical then
    20 + (light - th.lightCritical) / (th.lightLow - th.lightCritical) * 40
  else
    light / th.lightCritical * 20

/-- `StateManager::calculateTemperatureScore` (StateManager.cpp lines 240-256). -/
def calculateTemperatureScore (th : ThresholdConfig) (temperature : ℚ) : ℚ :=
  if th.temperatureOptimalMin ≤ temperature ∧ temperature ≤ th.temperatureOptimalMax then
    100
  else if th.temperatureMin ≤ temperature ∧ temperature ≤ th.temperatureMax then
    70 + (1 - (min |temperature - th.temperatureOptimalMin|
                   |temperature - th.temperatureOptimalMax|) / 10) * 30
  else
    0

/-- The C cast `(int)` of a float/rational value: truncation toward zero. -/
def cTruncToInt (q : ℚ) : ℤ :=
  if 0 ≤ q then ⌊q⌋ else ⌈q⌉

/-- Arduino `constrain(amt, low, high)` on ints. -/
def constrainInt (amt low high : ℤ) : ℤ :=
  if amt < low then low else if amt > high then high else amt

/-- `StateManager::calculateHealthScore` (StateManager.cpp lines 190-199):
weighted sum 0.4/0.4/0.2, truncated to int and constrained to 0..100. -/
def calculateHealthScore (th : ThresholdConfig) (data : SensorData) : ℤ :=
  let moistureScore := calculateMoistureScore th data.soilHumidity
  let lightScore := calculateLightScore th data.lightIntensity
  let temperatureScore := calculateTemperatureScore th data.temperature
  let totalScore := moistureScore * 0.4 + lightScore * 0.4 + temperatureScore * 0.2
  constrainInt (cTruncToInt totalScore) 0 100

/-- `StateManager::isAbnormalState` (StateManager.cpp lines 588-590). -/
def isAbnormalState (state : PlantState) : Bool :=
  state != PlantState.HEALTHY && state != PlantState.UNKNOWN

/-- The pure core of `StateManager::evaluateState` (StateManager.cpp lines
99-150) on a valid sample: the new state, the health score, and the
`needsAttention` flag written into `currentStatus`. -/
def evaluateStatus (th : ThresholdConfig) (data : SensorData) :
    PlantState × ℤ × Bool :=
  let newState := evaluateBasicState th data
  (newState, calculateHealthScore th data, isAbnormalState newState)

/-- C1: For every sample, the classifier's basic-state evaluation agrees with
the spec's left-to-right rule: Critical when moisture < moistureCritical or
light < lightCritical or temperature outside [tempMin, tempMax]; else Critical
when moisture < moistureLow and light < lightLow; else NeedsWater when
moisture < moistureLow; else NeedsLight when light < lightLow; else Healthy. -/
theorem evaluateBasicState_follows_spec (th : ThresholdConfig) (data : SensorData) :
    evaluateBasicState th data = specStateRule th data := by
  simp only [evaluateBasicState, specStateRule]
  split_ifs <;> first | rfl | tauto

/-- Scenario 1's sample {moisture=55, airHum=50, temp=25, light=800}
(spec §8). -/
def scenarioOneSample : SensorData :=
  { soilHumidity := 55
    airHumidity := 50
    temperature := 25
    lightIntensity := 800
    timestamp := 0
    isValid := true }

/-- C4 counterexample: on the sample {moisture=55, airHum=50, temp=25,
light=800} the code's health score is 84, not the spec's arithmetic
100·0.4 + (60 + (800−500)/1500·40)·0.4 + 100·0.2 = 87.2 (≈ 90): the spec
takes moistureScore = 100, but 55 is below the ideal-moisture bound 60, so the
code computes moistureScore = 60 + (55−30)/30·40 = 280/3. -/
theorem scenarioOne_score_ne_spec_arithmetic :
    calculateHealthScore defaultThresholds scenarioOneSample = 84 ∧
      (100 * (0.4 : ℚ) + (60 + (800 - 500) / 1500 * 40) * 0.4 + 100 * 0.2 = 436 / 5) ∧
      cTruncToInt (436 / 5) = 87 ∧ (84 : ℤ) ≠ 87 ∧ (84 : ℤ) ≠ 90 := by
  refine ⟨?_, by norm_num, ?_, by decide, by decide⟩
  · simp only [calculateHealthScore, calculateMoistureScore, calculateLightScore,
      calculateTemperatureScore, scenarioOneSample, defaultThresholds, cTruncToInt,
      constrainInt]
    norm_num
  · simp only [cTruncToInt]
    norm_num

/-- C4 amended: on the sample {moisture=55, airHum=50, temp=25, light=800}
under default thresholds, the classifier yields state Healthy, health score 84
(moistureScore = 280/3 since 55 < 60, lightScore = 68, temperatureScore = 100,
total = 1268/15 truncated to 84), and attention = false. -/
theorem scenarioOne_evaluates_healthy_84 :
    evaluateStatus defaultThresholds scenarioOneSample =
      (PlantState.HEALTHY, 84, false) ∧
      calculateMoistureScore defaultThresholds 55 = 280 / 3 ∧
      calculateLightScore defaultThresholds 800 = 68 ∧
      calculateTemperatureScore defaultThresholds 25 = 100 := by
  refine ⟨?_, ?_, ?_, ?_⟩
  · simp only [evaluateStatus, evaluateBasicState, calculateHealthScore,
      calculateMoistureScore, calculateLightScore, calculateTemperatureScore,
      scenarioOneSample, defaultThresholds, cTruncToInt, constrainInt,
      isAbnormalState]
    norm_num
  · simp only [calculateMoistureScore, defaultThresholds]
    norm_num
  · simp only [calculateLightScore, defaultThresholds]
    norm_num
  · simp only [calculateTemperatureScore, defaultThresholds]
    norm_num

/-! ## Power-save adapter (PowerSaveManager.cpp) -/

/-- `PowerSaveLevel` enum from PowerSaveManager.h. -/
inductive PowerSaveLevel
  | NONE
  | LOW
  | MEDIUM
  | HIGH
  | EMERGENCY
deriving DecidableEq, Repr

/-- `PowerSource` enum from PowerManager.h. -/
inductive PowerSource
  | BATTERY
  | USB_POWER
  | UNKNOWN
deriving DecidableEq, Repr

/-- `PowerSaveConfig` (PowerSaveManager.h): per-level sampling intervals,
LED brightness caps, feature switches and CPU frequencies. -/
structure PowerSaveConfig where
  normalSamplingInterval : Nat
  lowPowerSamplingInterval : Nat
  mediumPowerSamplingInterval : Nat
  highPowerSamplingInterval : Nat
  emergencySamplingInterval : Nat
  normalLedBrightness : ℤ
  lowPowerLedBrightness : ℤ
  mediumPowerLedBrightness : ℤ
  highPowerLedBrightness : ℤ
  emergencyLedBrightness : ℤ
  enableSoundInLowPower : Bool
  enableSoundInMediumPower : Bool
  enableSoundInHighPower : Bool
  enableSoundInEmergency : Bool
  enableWiFiInLowPower : Bool
  enableWiFiInMediumPower : Bool
  enableWiFiInHighPower : Bool
  enableWiFiInEmergency : Bool
  normalCpuFreq : ℤ
  lowPowerCpuFreq : ℤ
  mediumPowerCpuFreq : ℤ
  highPowerCpuFreq : ℤ
  emergencyCpuFreq : ℤ
deriving DecidableEq, Repr

/-- `PowerSaveManager::setDefaultConfig` (PowerSaveManager.cpp lines 49-83). -/
def defaultPowerSaveConfig : PowerSaveConfig :=
  { normalSamplingInterval := 5000
    lowPowerSamplingInterval := 10000
    mediumPowerSamplingInterval := 30000
    highPowerSamplingInterval := 60000
    emergencySamplingInterval := 300000
    normalLedBrightness := 255
    lowPowerLedBrightness := 128
    mediumPowerLedBrightness := 64
    highPowerLedBrightness := 32
    emergencyLedBrightness := 16
    enableSoundInLowPower := true
    enableSoundInMediumPower := true
    enableSoundInHighPower := false
    enableSoundInEmergency := false
    enableWiFiInLowPower := true
    enableWiFiInMediumPower := true
    enableWiFiInHighPower := false
    enableWiFiInEmergency := false
    normalCpuFreq := 240
    lowPowerCpuFreq := 160
    mediumPowerCpuFreq := 80
    highPowerCpuFreq := 40
    emergencyCpuFreq := 20 }

/-- `PowerSaveManager::calculateOptimalLevel` (PowerSaveManager.cpp lines
114-132). -/
def calculateOptimalLevel (batteryPercentage : ℤ) (powerSource : PowerSource) :
    PowerSaveLevel :=
  if powerSource = PowerSource.USB_POWER then PowerSaveLevel.NONE
  else if batteryPercentage < 5 then PowerSaveLevel.EMERGENCY
  else if batteryPercentage < 10 then PowerSaveLevel.HIGH
  else if batteryPercentage < 20 then PowerSaveLevel.MEDIUM
  else if batteryPercentage < 50 then PowerSaveLevel.LOW
  else PowerSaveLevel.NONE

/-- The sampling interval applied for a level by
`PowerSaveManager::applyPowerSaveLevel` (PowerSaveManager.cpp lines 134-203). -/
def samplingIntervalFor (config : PowerSaveConfig) : PowerSaveLevel → Nat
  | PowerSaveLevel.NONE => config.normalSamplingInterval
  | PowerSaveLevel.LOW => config.lowPowerSamplingInterval
  | PowerSaveLevel.MEDIUM => config.mediumPowerSamplingInterval
  | PowerSaveLevel.HIGH => config.highPowerSamplingInterval
  | PowerSaveLevel.EMERGENCY => config.emergencySamplingInterval

/-- The LED brightness applied for a level by
`PowerSaveManager::applyPowerSaveLevel` (PowerSaveManager.cpp lines 134-203). -/
def ledBrightnessFor (config : PowerSaveConfig) : PowerSaveLevel → ℤ
  | PowerSaveLevel.NONE => config.normalLedBrightness
  | PowerSaveLevel.LOW => config.lowPowerLedBrightness
  | PowerSaveLevel.MEDIUM => config.mediumPowerLedBrightness
  | PowerSaveLevel.HIGH => config.highPowerLedBrightness
  | PowerSaveLevel.EMERGENCY => config.emergencyLedBrightness

/-- C7: on battery source the applied configuration is monotone in the battery
percentage — at the lower percentage the sampling interval is at least as
large and the LED brightness at most as large —, the band boundaries are
exactly {50, 20, 10, 5}, and USB source always yields level None. -/
theorem powerSave_bands_monotone (p1 p2 : ℤ) (h : p1 > p2) :
    samplingIntervalFor defaultPowerSaveConfig
        (calculateOptimalLevel p2 PowerSource.BATTERY) ≥
      samplingIntervalFor defaultPowerSaveConfig
        (calculateOptimalLevel p1 PowerSource.BATTERY) ∧
    ledBrightnessFor defaultPowerSaveConfig
        (calculateOptimalLevel p2 PowerSource.BATTERY) ≤
      ledBrightnessFor defaultPowerSaveConfig
        (calculateOptimalLevel p1 PowerSource.BATTERY) ∧
    (∀ p : ℤ, calculateOptimalLevel p PowerSource.USB_POWER = PowerSaveLevel.NONE) ∧
    calculateOptimalLevel 50 PowerSource.BATTERY = PowerSaveLevel.NONE ∧
    calculateOptimalLevel 49 PowerSource.BATTERY = PowerSaveLevel.LOW ∧
    calculateOptimalLevel 20 PowerSource.BATTERY = PowerSaveLevel.LOW ∧
    calculateOptimalLevel 19 PowerSource.BATTERY = PowerSaveLevel.MEDIUM ∧
    calculateOptimalLevel 10 PowerSource.BATTERY = PowerSaveLevel.MEDIUM ∧
    calculateOptimalLevel 9 PowerSource.BATTERY = PowerSaveLevel.HIGH ∧
    calculateOptimalLevel 5 PowerSource.BATTERY = PowerSaveLevel.HIGH ∧
    calculateOptimalLevel 4 PowerSource.BATTERY = PowerSaveLevel.EMERGENCY := by
  refine ⟨?_, ?_, fun p => rfl, by decide, by decide, by decide, by decide,
    by decide, by decide, by decide, by decide⟩
  · simp only [calculateOptimalLevel]
    split_ifs <;>
      simp only [samplingIntervalFor, defaultPowerSaveConfig] <;> omega
  · simp only [calculateOptimalLevel]
    split_ifs <;>
      simp only [ledBrightnessFor, defaultPowerSaveConfig] <;> omega

/-- Witness for `powerSave_bands_monotone` at p1 = 60, p2 = 3. -/
theorem powerSave_bands_monotone_witness :
    (60 : ℤ) > 3 ∧
      samplingIntervalFor defaultPowerSaveConfig
          (calculateOptimalLevel 3 PowerSource.BATTERY) ≥
        samplingIntervalFor defaultPowerSaveConfig
          (calculateOptimalLevel 60 PowerSource.BATTERY) :=
  ⟨by decide, (powerSave_bands_monotone 60 3 (by decide)).1⟩

/-! ## Alert escalator (AlertManager.cpp)

Unsigned 32-bit time arithmetic (`millis()` differences) is modelled by
`u32sub`.  Callback invocations are modelled by counting: each operation
returns, besides the new manager, how many times the stop callback and the
alert callback fired during it. -/

/-- C `unsigned long` subtraction `a - b` on a 32-bit target. -/
def u32sub (a b : Nat) : Nat :=
  (a % 4294967296 + 4294967296 - b % 4294967296) % 4294967296

/-- `AlertType` enum from AlertManager.h. -/
inductive AlertType
  | NONE
  | NEEDS_WATER
  | NEEDS_LIGHT
  | LOW_BATTERY
  | SENSOR_ERROR
  | CRITICAL
deriving DecidableEq, Repr

/-- `AlertState` enum from AlertManager.h. -/
inductive AlertState
  | INACTIVE
  | PENDING
  | ACTIVE
  | ACKNOWLEDGED
  | SNOOZED
deriving DecidableEq, Repr

/-- `AlertInfo` struct from AlertManager.h. -/
structure AlertInfo where
  type : AlertType
  state : AlertState
  startTime : Nat
  lastAlertTime : Nat
  acknowledgeTime : Nat
  repeatCount : ℤ
  isUrgent : Bool
  message : String
deriving DecidableEq, Repr

/-- The `AlertManager` object's fields (AlertManager.h). -/
structure AlertManager where
  alertDelay : Nat
  repeatInterval : Nat
  snoozeTime : Nat
  maxRepeatCount : ℤ
  isEnabled : Bool
  isAlerting : Bool
  lastUpdateTime : Nat
  currentAlert : AlertInfo
  totalAlerts : Nat
  totalAcknowledgments : Nat
  totalSnoozes : Nat
deriving DecidableEq, Repr

/-- `AlertManager::getAlertMessage` (AlertManager.cpp lines 277-292). -/
def getAlertMessage : AlertType → String
  | AlertType.NEEDS_WATER => "植物需要浇水"
  | AlertType.NEEDS_LIGHT => "植物需要更多光照"
  | AlertType.LOW_BATTERY => "电池电量不足"
  | AlertType.SENSOR_ERROR => "传感器故障"
  | AlertType.CRITICAL => "植物状态严重"
  | AlertType.NONE => "未知提醒"

/-- The `AlertManager` constructor state (AlertManager.cpp lines 13-36), with
ALERT_DELAY = 1800000 and REPEAT_ALERT_INTERVAL = 7200000 from config.h. -/
def initialAlertManager : AlertManager :=
  { alertDelay := 1800000
    repeatInterval := 7200000
    snoozeTime := 1800000
    maxRepeatCount := 10
    isEnabled := true
    isAlerting := false
    lastUpdateTime := 0
    currentAlert :=
      { type := AlertType.NONE
        state := AlertState.INACTIVE
        startTime := 0
        lastAlertTime := 0
        acknowledgeTime := 0
        repeatCount := 0
        isUrgent := false
        message := "" }
    totalAlerts := 0
    totalAcknowledgments := 0
    totalSnoozes := 0 }

/-- `AlertManager::stopAlert` (AlertManager.cpp lines 188-199); the returned
number counts stop-callback invocations. -/
def stopAlert (m : AlertManager) : AlertManager × Nat :=
  if m.isAlerting then ({ m with isAlerting := false }, 1) else (m, 0)

/-- `AlertManager::triggerAlert` (AlertManager.cpp lines 165-186); the
returned number counts alert-callback invocations. -/
def triggerAlert (m : AlertManager) (now : Nat) : AlertManager × Nat :=
  if ¬m.isEnabled ∨ m.currentAlert.type = AlertType.NONE then (m, 0)
  else
    ({ m with
        currentAlert :=
          { m.currentAlert with
              state := AlertState.ACTIVE
              lastAlertTime := now
              repeatCount := m.currentAlert.repeatCount + 1 }
        totalAlerts := m.totalAlerts + 1
        isAlerting := true }, 1)

/-- `AlertManager::reportAbnormalState` (AlertManager.cpp lines 78-107). -/
def reportAbnormalState (m : AlertManager) (type : AlertType) (isUrgent : Bool)
    (now : Nat) : AlertManager :=
  if ¬m.isEnabled ∨ type = AlertType.NONE then m
  else
    let m1 :=
      if m.currentAlert.type ≠ type ∨ m.currentAlert.state = AlertState.INACTIVE then
        { m with
            currentAlert :=
              { type := type
                state := AlertState.PENDING
                startTime := now
                lastAlertTime := 0
                acknowledgeTime := 0
                repeatCount := 0
                isUrgent := isUrgent
                message := getAlertMessage type } }
      else m
    if isUrgent ∧ ¬m1.currentAlert.isUrgent then
      { m1 with currentAlert := { m1.currentAlert with isUrgent := true } }
    else m1

/-- `AlertManager::reportNormalState` (AlertManager.cpp lines 109-128). -/
def reportNormalState (m : AlertManager) : AlertManager × Nat :=
  if m.currentAlert.state ≠ AlertState.INACTIVE then
    let r := if m.isAlerting then stopAlert m else (m, 0)
    ({ r.1 with
        currentAlert :=
          { type := AlertType.NONE
            state := AlertState.INACTIVE
            startTime := 0
            lastAlertTime := 0
            acknowledgeTime := 0
            repeatCount := 0
            isUrgent := false
            message := "" } }, r.2)
  else (m, 0)

/-- `AlertManager::acknowledgeAlert` (AlertManager.cpp lines 130-143). -/
def acknowledgeAlert (m : AlertManager) (now : Nat) : AlertManager × Nat :=
  if m.currentAlert.state = AlertState.ACTIVE then
    let m1 :=
      { m with
          currentAlert :=
            { m.currentAlert with
                state := AlertState.ACKNOWLEDGED
                acknowledgeTime := now }
          totalAcknowledgments := m.totalAcknowledgments + 1 }
    if m1.isAlerting then stopAlert m1 else (m1, 0)
  else (m, 0)

/-- `AlertManager::snoozeAlert` (AlertManager.cpp lines 145-163).  The final
pending time is `millis() - repeatInterval + snoozeDuration` in u32
arithmetic. -/
def snoozeAlert (m : AlertManager) (duration : Nat) (now : Nat) :
    AlertManager × Nat :=
  if m.currentAlert.state = AlertState.ACTIVE then
    let snoozeDuration := if duration > 0 then duration else m.snoozeTime
    let m1 :=
      { m with
          currentAlert :=
            { m.currentAlert with
                state := AlertState.SNOOZED
                acknowledgeTime := now }
          totalSnoozes := m.totalSnoozes + 1 }
    let r := if m1.isAlerting then stopAlert m1 else (m1, 0)
    ({ r.1 with
        currentAlert :=
          { r.1.currentAlert with
              lastAlertTime := (u32sub now m.repeatInterval + snoozeDuration) % 4294967296 } },
      r.2)
  else (m, 0)

/-- `AlertManager::updateAlertState` (AlertManager.cpp lines 201-247); returns
(new manager, stop fires, alert fires). -/
def updateAlertState (m : AlertManager) (now : Nat) : AlertManager × Nat × Nat :=
  match m.currentAlert.state with
  | AlertState.INACTIVE => (m, 0, 0)
  | AlertState.PENDING =>
    if u32sub now m.currentAlert.startTime ≥ m.alertDelay ∨ m.currentAlert.isUrgent then
      let r := triggerAlert m now
      (r.1, 0, r.2)
    else (m, 0, 0)
  | AlertState.ACKNOWLEDGED =>
    if u32sub now m.currentAlert.acknowledgeTime > m.snoozeTime then
      ({ m with currentAlert := { m.currentAlert with state := AlertState.PENDING } }, 0, 0)
    else (m, 0, 0)
  | AlertState.SNOOZED =>
    if u32sub now m.currentAlert.acknowledgeTime > m.snoozeTime then
      ({ m with currentAlert := { m.currentAlert with state := AlertState.PENDING } }, 0, 0)
    else (m, 0, 0)
  | AlertState.ACTIVE =>
    if m.currentAlert.repeatCount ≥ m.maxRepeatCount then
      let m1 :=
        { m with
            currentAlert :=
              { m.currentAlert with
                  state := AlertState.ACKNOWLEDGED
                  acknowledgeTime := now } }
      let r := stopAlert m1
      (r.1, r.2, 0)
    else (m, 0, 0)

/-- `AlertManager::shouldTriggerAlert` (AlertManager.cpp lines 249-259). -/
def shouldTriggerAlert (m : AlertManager) (now : Nat) : Bool :=
  m.isEnabled && !m.isAlerting &&
    decide (m.currentAlert.state = AlertState.PENDING) &&
    (m.currentAlert.isUrgent ||
      decide (u32sub now m.currentAlert.startTime ≥ m.alertDelay))

/-- `AlertManager::shouldRepeatAlert` (AlertManager.cpp lines 261-275). -/
def shouldRepeatAlert (m : AlertManager) (now : Nat) : Bool :=
  m.isEnabled && m.isAlerting &&
    decide (m.currentAlert.state = AlertState.ACTIVE) &&
    decide (m.currentAlert.repeatCount < m.maxRepeatCount) &&
    decide (u32sub now m.currentAlert.lastAlertTime ≥ m.repeatInterval)

/-- The statement `if (shouldTriggerAlert()) triggerAlert();` inside
`AlertManager::update` (AlertManager.cpp lines 68-70). -/
def updateTrigPhase (m : AlertManager) (now : Nat) : AlertManager × Nat :=
  if shouldTriggerAlert m now then triggerAlert m now else (m, 0)

/-- The statement `if (shouldRepeatAlert()) triggerAlert();` inside
`AlertManager::update` (AlertManager.cpp lines 73-75). -/
def updateRepeatPhase (m : AlertManager) (now : Nat) : AlertManager × Nat :=
  if shouldRepeatAlert m now then triggerAlert m now else (m, 0)

/-- `AlertManager::update` (AlertManager.cpp lines 56-76); returns
(new manager, stop fires, alert fires) for one tick at time `now`. -/
def update (m : AlertManager) (now : Nat) : AlertManager × Nat × Nat :=
  if ¬m.isEnabled then (m, 0, 0)
  else
    let r1 := updateAlertState { m with lastUpdateTime := now } now
    let r2 := updateTrigPhase r1.1 now
    let r3 := updateRepeatPhase r2.1 now
    (r3.1, r1.2.1, r1.2.2 + r2.2 + r3.2)

/-- `AlertManager::setAlertDelay` (AlertManager.cpp lines 316-319). -/
def setAlertDelay (m : AlertManager) (delay : Nat) : AlertManager :=
  { m with alertDelay := delay }

/-- `AlertManager::setRepeatInterval` (AlertManager.cpp lines 321-324). -/
def setRepeatInterval (m : AlertManager) (interval : Nat) : AlertManager :=
  { m with repeatInterval := interval }

/-- `AlertManager::setSnoozeTime` (AlertManager.cpp lines 326-329). -/
def setSnoozeTime (m : AlertManager) (time : Nat) : AlertManager :=
  { m with snoozeTime := time }

/-- `AlertManager::setMaxRepeatCount` (AlertManager.cpp lines 331-334). -/
def setMaxRepeatCount (m : AlertManager) (count : ℤ) : AlertManager :=
  { m with maxRepeatCount := count }

/-- One public operation on the alert escalator, as in the C2 claim's
operation set. -/
inductive AlertOp
  | report (t : AlertType) (u : Bool)
  | reportNormal
  | ack
  | snooze (d : Nat)
  | tick
deriving DecidableEq, Repr

/-- Apply one operation at time `now`; returns
(new manager, stop fires, alert fires). -/
def applyAlertOp (m : AlertManager) (op : AlertOp) (now : Nat) :
    AlertManager × Nat × Nat :=
  match op with
  | AlertOp.report t u => (reportAbnormalState m t u now, 0, 0)
  | AlertOp.reportNormal => ((reportNormalState m).1, (reportNormalState m).2, 0)
  | AlertOp.ack => ((acknowledgeAlert m now).1, (acknowledgeAlert m now).2, 0)
  | AlertOp.snooze d => ((snoozeAlert m d now).1, (snoozeAlert m d now).2, 0)
  | AlertOp.tick => update m now

/-- u32 subtraction of a time from itself is zero. -/
theorem u32sub_self (a : Nat) : u32sub a a = 0 := by
  simp [u32sub]

/-- `triggerAlert` preserves the invariant that an Active alert is alerting. -/
theorem triggerAlert_inv (t : AlertManager) (now : Nat)
    (h : t.currentAlert.state = AlertState.ACTIVE → t.isAlerting = true) :
    (triggerAlert t now).1.currentAlert.state = AlertState.ACTIVE →
      (triggerAlert t now).1.isAlerting = true := by
  simp only [triggerAlert]
  split_ifs <;> simp_all

/-- `triggerAlert` either does nothing (disabled, or type None) or activates
the alert and increments repeatCount by one. -/
theorem triggerAlert_state_or (t : AlertManager) (now : Nat) :
    (triggerAlert t now).1 = t ∨
      ((triggerAlert t now).1.currentAlert.state = AlertState.ACTIVE ∧
        (triggerAlert t now).1.isAlerting = true ∧
        (triggerAlert t now).1.currentAlert.repeatCount = t.currentAlert.repeatCount + 1) := by
  simp only [triggerAlert]
  split_ifs <;> simp_all

/-- `updateAlertState` preserves the invariant that an Active alert is
alerting. -/
theorem updateAlertState_inv (t : AlertManager) (now : Nat)
    (h : t.currentAlert.state = AlertState.ACTIVE → t.isAlerting = true) :
    (updateAlertState t now).1.currentAlert.state = AlertState.ACTIVE →
      (updateAlertState t now).1.isAlerting = true := by
  rcases hs : t.currentAlert.state
  · simp only [updateAlertState, hs]; simp_all
  · simp only [updateAlertState, hs]
    split_ifs
    · exact triggerAlert_inv t now h
    · simp_all
  · simp only [updateAlertState, hs, stopAlert]
    split_ifs <;> simp_all
  · simp only [updateAlertState, hs]
    split_ifs <;> simp_all
  · simp only [updateAlertState, hs]
    split_ifs <;> simp_all

/-- `updateAlertState` fires the stop callback at most once. -/
theorem updateAlertState_stops_le_one (t : AlertManager) (now : Nat) :
    (updateAlertState t now).2.1 ≤ 1 := by
  rcases hs : t.currentAlert.state <;>
    simp only [updateAlertState, hs, stopAlert] <;>
    (try split_ifs) <;> simp_all

/-- From an Active alert, `updateAlertState` either terminates it into
Acknowledged (firing the stop callback exactly when it was alerting) or does
nothing, depending on the repeat bound. -/
theorem updateAlertState_active_cases (t : AlertManager) (now : Nat)
    (hA : t.currentAlert.state = AlertState.ACTIVE) :
    (t.currentAlert.repeatCount ≥ t.maxRepeatCount ∧
      (updateAlertState t now).1.currentAlert.state = AlertState.ACKNOWLEDGED ∧
      (updateAlertState t now).1.isAlerting = false ∧
      (updateAlertState t now).2.1 = if t.isAlerting then 1 else 0) ∨
    (t.currentAlert.repeatCount < t.maxRepeatCount ∧
      updateAlertState t now = (t, 0, 0)) := by
  simp only [updateAlertState, hA, stopAlert]
  split_ifs <;> simp_all

/-- The trigger phase preserves the invariant that an Active alert is
alerting. -/
theorem updateTrigPhase_inv (t : AlertManager) (now : Nat)
    (h : t.currentAlert.state = AlertState.ACTIVE → t.isAlerting = true) :
    (updateTrigPhase t now).1.currentAlert.state = AlertState.ACTIVE →
      (updateTrigPhase t now).1.isAlerting = true := by
  simp only [updateTrigPhase]
  split_ifs
  · exact triggerAlert_inv t now h
  · simp_all

/-- The repeat phase preserves the invariant that an Active alert is
alerting. -/
theorem updateRepeatPhase_inv (t : AlertManager) (now : Nat)
    (h : t.currentAlert.state = AlertState.ACTIVE → t.isAlerting = true) :
    (updateRepeatPhase t now).1.currentAlert.state = AlertState.ACTIVE →
      (updateRepeatPhase t now).1.isAlerting = true := by
  simp only [updateRepeatPhase]
  split_ifs
  · exact triggerAlert_inv t now h
  · simp_all

/-- The trigger phase does nothing unless the alert is Pending. -/
theorem updateTrigPhase_id_of_ne_pending (t : AlertManager) (now : Nat)
    (h : t.currentAlert.state ≠ AlertState.PENDING) :
    updateTrigPhase t now = (t, 0) := by
  simp only [updateTrigPhase, shouldTriggerAlert]
  split_ifs with hc
  · simp_all
  · rfl

/-- The repeat phase does nothing unless the alert is Active. -/
theorem updateRepeatPhase_id_of_ne_active (t : AlertManager) (now : Nat)
    (h : t.currentAlert.state ≠ AlertState.ACTIVE) :
    updateRepeatPhase t now = (t, 0) := by
  simp only [updateRepeatPhase, shouldRepeatAlert]
  split_ifs with hc
  · simp_all
  · rfl

/-- The repeat phase keeps an Active alert Active. -/
theorem updateRepeatPhase_state_active (t : AlertManager) (now : Nat)
    (h : t.currentAlert.state = AlertState.ACTIVE) :
    (updateRepeatPhase t now).1.currentAlert.state = AlertState.ACTIVE := by
  simp only [updateRepeatPhase]
  split_ifs with hc
  · rcases triggerAlert_state_or t now with heq | ⟨ha, _, _⟩
    · rw [heq]; exact h
    · exact ha
  · exact h

/-- The repeat phase preserves the repeat bound: it re-fires only when
repeatCount < maxRepeatCount. -/
theorem updateRepeatPhase_bound (t : AlertManager) (now : Nat)
    (h : t.currentAlert.repeatCount ≤ t.maxRepeatCount) :
    (updateRepeatPhase t now).1.currentAlert.repeatCount ≤ t.maxRepeatCount := by
  simp only [updateRepeatPhase]
  split_ifs with hc
  · rcases triggerAlert_state_or t now with heq | ⟨_, _, hrc⟩
    · rw [heq]; exact h
    · rw [hrc]
      simp only [shouldRepeatAlert, Bool.and_eq_true, decide_eq_true_eq] at hc
      omega
  · exact h

/-- Unfolding of `update` when the manager is enabled. -/
theorem update_eq_of_enabled (m : AlertManager) (now : Nat) (hE : m.isEnabled = true) :
    update m now =
      ((updateRepeatPhase (updateTrigPhase
          (updateAlertState { m with lastUpdateTime := now } now).1 now).1 now).1,
        (updateAlertState { m with lastUpdateTime := now } now).2.1,
        (updateAlertState { m with lastUpdateTime := now } now).2.2 +
          (updateTrigPhase (updateAlertState { m with lastUpdateTime := now } now).1 now).2 +
          (updateRepeatPhase (updateTrigPhase
            (updateAlertState { m with lastUpdateTime := now } now).1 now).1 now).2) := by
  simp [update, hE]

/-- Unfolding of `update` when the manager is disabled. -/
theorem update_eq_of_disabled (m : AlertManager) (now : Nat) (hE : m.isEnabled = false) :
    update m now = (m, 0, 0) := by
  simp [update, hE]

/-- A tick fires the stop callback at most once. -/
theorem update_stops_le_one (m : AlertManager) (now : Nat) :
    (update m now).2.1 ≤ 1 := by
  by_cases hE : m.isEnabled
  · rw [update_eq_of_enabled m now hE]
    exact updateAlertState_stops_le_one _ now
  · rw [update_eq_of_disabled m now (by simp_all)]
    exact Nat.zero_le 1

/-- A tick preserves the invariant that an Active alert is alerting. -/
theorem update_inv (m : AlertManager) (now : Nat)
    (hInv : m.currentAlert.state = AlertState.ACTIVE → m.isAlerting = true) :
    (update m now).1.currentAlert.state = AlertState.ACTIVE →
      (update m now).1.isAlerting = true := by
  by_cases hE : m.isEnabled
  · have h1 : ({ m with lastUpdateTime := now } : AlertManager).currentAlert.state
        = AlertState.ACTIVE → ({ m with lastUpdateTime := now } : AlertManager).isAlerting = true :=
      hInv
    have h2 := updateAlertState_inv { m with lastUpdateTime := now } now h1
    have h3 := updateTrigPhase_inv (updateAlertState { m with lastUpdateTime := now } now).1 now h2
    have h4 := updateRepeatPhase_inv
      (updateTrigPhase (updateAlertState { m with lastUpdateTime := now } now).1 now).1 now h3
    rw [update_eq_of_enabled m now hE]
    exact h4
  · rw [update_eq_of_disabled m now (by simp_all)]
    exact hInv

/-- A tick that takes an alerting Active alert to a terminal state fires the
stop callback exactly once. -/
theorem update_active_terminal (m : AlertManager) (now : Nat)
    (hE : m.isEnabled = true) (hA : m.currentAlert.state = AlertState.ACTIVE)
    (hal : m.isAlerting = true)
    (hterm : (update m now).1.currentAlert.state = AlertState.ACKNOWLEDGED ∨
      (update m now).1.currentAlert.state = AlertState.SNOOZED) :
    (update m now).2.1 = 1 := by
  rw [update_eq_of_enabled m now hE] at hterm ⊢
  rcases updateAlertState_active_cases { m with lastUpdateTime := now } now hA with
    ⟨hge, hack, half, hstop⟩ | ⟨hlt, heq⟩
  · rw [hstop]
    simp [hal]
  · rw [heq] at hterm ⊢
    rw [updateTrigPhase_id_of_ne_pending _ now (by simp [hA])] at hterm
    have := updateRepeatPhase_state_active ({ m with lastUpdateTime := now }) now hA
    rw [this] at hterm
    rcases hterm with hterm | hterm <;> exact absurd hterm (by simp)

/-- A tick that keeps an alert Active preserves repeatCount ≤ maxRepeatCount. -/
theorem update_active_bound (m : AlertManager) (now : Nat)
    (hE : m.isEnabled = true) (hA : m.currentAlert.state = AlertState.ACTIVE)
    (hb : m.currentAlert.repeatCount ≤ m.maxRepeatCount)
    (hact : (update m now).1.currentAlert.state = AlertState.ACTIVE) :
    (update m now).1.currentAlert.repeatCount ≤ m.maxRepeatCount := by
  rw [update_eq_of_enabled m now hE] at hact ⊢
  rcases updateAlertState_active_cases { m with lastUpdateTime := now } now hA with
    ⟨hge, hack, half, hstop⟩ | ⟨hlt, heq⟩
  · rw [updateTrigPhase_id_of_ne_pending _ now (by simp [hack])] at hact ⊢
    rw [updateRepeatPhase_id_of_ne_active _ now (by simp [hack])] at hact
    exact absurd hact (by simp [hack])
  · rw [heq] at hact ⊢
    rw [updateTrigPhase_id_of_ne_pending _ now (by simp [hA])] at hact ⊢
    exact updateRepeatPhase_bound _ now hb

/-- The escalator configured with delay 5 ms, repeat interval 1000 ms, snooze
time 0 ms and maxRepeatCount 1, via the public setters. -/
def c2Settings : AlertManager :=
  setMaxRepeatCount (setSnoozeTime (setRepeatInterval
    (setAlertDelay initialAlertManager 5) 1000) 0) 1

/-- The C2 counterexample trace: urgent report at t=0, ticks at t=10, 20, 21. -/
def c2Trace : AlertManager :=
  (update (update (update
    (reportAbnormalState c2Settings AlertType.NEEDS_WATER true 0)
    10).1 20).1 21).1

/-- C2 counterexample: `repeatCount never exceeds maxRepeatCount` is false.
With maxRepeatCount = 1 and snoozeTime = 0, the alert activates at t=10
(repeatCount 1), the t=20 tick hits the repeat bound and moves it to
Acknowledged, the t=21 tick times the acknowledgement out back to Pending and
immediately re-triggers, leaving repeatCount = 2 > maxRepeatCount = 1. -/
theorem alert_repeatCount_exceeds_max :
    c2Trace.currentAlert.repeatCount = 2 ∧ c2Trace.maxRepeatCount = 1 ∧
      ¬(c2Trace.currentAlert.repeatCount ≤ c2Trace.maxRepeatCount) := by
  decide

/-- C2 amended: over any single escalator operation (report / reportNormal /
acknowledge / snooze / tick), given the reachability invariant that an Active
alert is alerting: the invariant is preserved, at most one stop callback fires,
exactly one stop callback fires on every Active-to-terminal (Acknowledged or
Snoozed) transition, and while the alert stays Active the bound
repeatCount ≤ maxRepeatCount is preserved.  (The bound can still be exceeded
across an Acknowledged/Snoozed timeout back to Pending, as the counterexample
shows: the Pending trigger increments repeatCount unconditionally.) -/
theorem alert_stop_exactness_and_active_bound (m : AlertManager) (op : AlertOp)
    (now : Nat) (hInv : m.currentAlert.state = AlertState.ACTIVE → m.isAlerting = true) :
    ((applyAlertOp m op now).1.currentAlert.state = AlertState.ACTIVE →
      (applyAlertOp m op now).1.isAlerting = true) ∧
    (applyAlertOp m op now).2.1 ≤ 1 ∧
    ((m.currentAlert.state = AlertState.ACTIVE ∧
        ((applyAlertOp m op now).1.currentAlert.state = AlertState.ACKNOWLEDGED ∨
          (applyAlertOp m op now).1.currentAlert.state = AlertState.SNOOZED)) →
      (applyAlertOp m op now).2.1 = 1) ∧
    (m.currentAlert.state = AlertState.ACTIVE →
      (applyAlertOp m op now).1.currentAlert.state = AlertState.ACTIVE →
      m.currentAlert.repeatCount ≤ m.maxRepeatCount →
      (applyAlertOp m op now).1.currentAlert.repeatCount ≤ m.maxRepeatCount) := by
  cases op with
  | report t u =>
    simp only [applyAlertOp, reportAbnormalState]
    split_ifs <;> simp_all
  | reportNormal =>
    simp only [applyAlertOp, reportNormalState, stopAlert]
    split_ifs <;> simp_all
  | ack =>
    simp only [applyAlertOp, acknowledgeAlert, stopAlert]
    split_ifs <;> simp_all
  | snooze d =>
    simp only [applyAlertOp, snoozeAlert, stopAlert]
    split_ifs <;> simp_all
  | tick =>
    simp only [applyAlertOp]
    refine ⟨update_inv m now hInv, update_stops_le_one m now, ?_, ?_⟩
    · rintro ⟨hA, hterm⟩
      by_cases hE : m.isEnabled
      · exact update_active_terminal m now (by simp_all) hA (hInv hA) hterm
      · rw [update_eq_of_disabled m now (by simp_all)] at hterm
        rcases hterm with h | h <;> simp_all
    · intro hA hact hb
      by_cases hE : m.isEnabled
      · exact update_active_bound m now (by simp_all) hA hb hact
      · rw [update_eq_of_disabled m now (by simp_all)] at hact ⊢
        exact hb

/-- Witness for `alert_stop_exactness_and_active_bound` at the initial
manager, a tick, and t = 0. -/
theorem alert_stop_exactness_witness :
    (initialAlertManager.currentAlert.state = AlertState.ACTIVE →
      initialAlertManager.isAlerting = true) ∧
    (applyAlertOp initialAlertManager AlertOp.tick 0).2.1 ≤ 1 :=
  ⟨by decide,
    (alert_stop_exactness_and_active_bound initialAlertManager AlertOp.tick 0
      (by decide)).2.1⟩

/-- C9: re-reporting the abnormal type already being tracked (while the alert
is not Inactive) leaves type, state, startTime, lastAlertTime,
acknowledgeTime, repeatCount and message unchanged; the only possible mutation
is the promotion of isUrgent from false to true.  In particular the pre-alert
delay (anchored at startTime) is not restarted. -/
theorem reportAbnormalState_sameType_frame (m : AlertManager) (t : AlertType)
    (u : Bool) (now : Nat) (h1 : m.currentAlert.type = t)
    (h2 : m.currentAlert.state ≠ AlertState.INACTIVE) :
    (reportAbnormalState m t u now).currentAlert.type = m.currentAlert.type ∧
    (reportAbnormalState m t u now).currentAlert.state = m.currentAlert.state ∧
    (reportAbnormalState m t u now).currentAlert.startTime = m.currentAlert.startTime ∧
    (reportAbnormalState m t u now).currentAlert.lastAlertTime = m.currentAlert.lastAlertTime ∧
    (reportAbnormalState m t u now).currentAlert.acknowledgeTime = m.currentAlert.acknowledgeTime ∧
    (reportAbnormalState m t u now).currentAlert.repeatCount = m.currentAlert.repeatCount ∧
    (reportAbnormalState m t u now).currentAlert.message = m.currentAlert.message ∧
    ((reportAbnormalState m t u now).currentAlert.isUrgent = m.currentAlert.isUrgent ∨
      (m.currentAlert.isUrgent = false ∧
        (reportAbnormalState m t u now).currentAlert.isUrgent = true)) := by
  simp only [reportAbnormalState, h1]
  split_ifs <;> simp_all

/-- Witness for `reportAbnormalState_sameType_frame`: a pending NeedsWater
alert re-reported urgently at t = 5 keeps its startTime. -/
theorem reportAbnormalState_sameType_frame_witness :
    ((reportAbnormalState initialAlertManager AlertType.NEEDS_WATER false 0).currentAlert.type
        = AlertType.NEEDS_WATER ∧
      (reportAbnormalState initialAlertManager AlertType.NEEDS_WATER false 0).currentAlert.state
        ≠ AlertState.INACTIVE) ∧
    (reportAbnormalState
        (reportAbnormalState initialAlertManager AlertType.NEEDS_WATER false 0)
        AlertType.NEEDS_WATER true 5).currentAlert.startTime =
      (reportAbnormalState initialAlertManager AlertType.NEEDS_WATER false 0).currentAlert.startTime :=
  ⟨by decide,
    (reportAbnormalState_sameType_frame
      (reportAbnormalState initialAlertManager AlertType.NEEDS_WATER false 0)
      AlertType.NEEDS_WATER true 5 (by decide) (by decide)).2.2.1⟩

/-! ## Touch sensor (TouchSensor.cpp)

Raw ADC values are C ints, modelled as `ℤ`; every value reaching the filter in
the scenarios below is nonnegative, so C integer division agrees with the
model. -/

/-- `TouchEventType` enum from TouchSensor.h. -/
inductive TouchEventType
  | TOUCH_START
  | TOUCH_END
  | TOUCH_HOLD
  | TOUCH_TAP
deriving DecidableEq, Repr

/-- `TouchEvent` struct from TouchSensor.h. -/
structure TouchEvent where
  type : TouchEventType
  timestamp : Nat
  pressure : ℤ
  duration : Nat
deriving DecidableEq, Repr

/-- The `TouchSensor` object's fields (TouchSensor.h). -/
structure TouchSensor where
  touchThreshold : ℤ
  releaseThreshold : ℤ
  debounceTime : Nat
  holdTime : Nat
  isTouched : Bool
  lastTouchState : Bool
  touchStartTime : Nat
  lastReadTime : Nat
  lastRawValue : ℤ
  filteredValue : ℤ
  totalTouches : Nat
  totalHolds : Nat
  lastTouchTime : Nat
deriving DecidableEq, Repr

/-- The `TouchSensor` constructor state (TouchSensor.cpp lines 14-31), with the
default thresholds 2000/1800, debounce 50 ms, hold 1000 ms. -/
def initialTouchSensor : TouchSensor :=
  { touchThreshold := 2000
    releaseThreshold := 1800
    debounceTime := 50
    holdTime := 1000
    isTouched := false
    lastTouchState := false
    touchStartTime := 0
    lastReadTime := 0
    lastRawValue := 0
    filteredValue := 0
    totalTouches := 0
    totalHolds := 0
    lastTouchTime := 0 }

/-- `TouchSensor::initialize` (TouchSensor.cpp lines 37-53): seeds the filter
with the first raw reading. -/
def TouchSensor.initSensor (initialValue : ℤ) : TouchSensor :=
  { initialTouchSensor with filteredValue := initialValue, lastRawValue := initialValue }

/-- `TouchSensor::applyFilter` (TouchSensor.cpp lines 120-123), with
FILTER_ALPHA = 8. -/
def TouchSensor.applyFilter (filteredValue raw : ℤ) : ℤ :=
  (filteredValue * (8 - 1) + raw) / 8

/-- `TouchSensor::detectTouch` (TouchSensor.cpp lines 125-133): hysteresis
between touchThreshold and releaseThreshold. -/
def TouchSensor.detectTouch (s : TouchSensor) (value : ℤ) : Bool :=
  if s.isTouched then decide (value > s.releaseThreshold)
  else decide (value > s.touchThreshold)

/-- `TouchSensor::update` (TouchSensor.cpp lines 55-114): one poll with raw
reading `raw` at time `now`; returns the new state and the emitted events in
order. -/
def TouchSensor.update (s : TouchSensor) (raw : ℤ) (now : Nat) :
    TouchSensor × List TouchEvent :=
  if u32sub now s.lastReadTime < 10 then (s, [])
  else
    let s1 := { s with lastReadTime := now }
    let filtered := TouchSensor.applyFilter s1.filteredValue raw
    let s2 := { s1 with filteredValue := filtered }
    let currentTouchState := TouchSensor.detectTouch s2 filtered
    if currentTouchState ≠ s2.lastTouchState then
      if u32sub now s2.touchStartTime > s2.debounceTime then
        if currentTouchState = true ∧ s2.lastTouchState = false then
          ({ s2 with
              isTouched := true
              touchStartTime := now
              lastTouchTime := now
              totalTouches := s2.totalTouches + 1
              lastTouchState := currentTouchState },
            [{ type := TouchEventType.TOUCH_START, timestamp := now,
               pressure := filtered, duration := 0 }])
        else if currentTouchState = false ∧ s2.lastTouchState = true then
          let duration := u32sub now s2.touchStartTime
          if duration ≥ s2.holdTime then
            ({ s2 with
                isTouched := false
                totalHolds := s2.totalHolds + 1
                lastTouchState := currentTouchState },
              [{ type := TouchEventType.TOUCH_HOLD, timestamp := now,
                 pressure := filtered, duration := duration },
               { type := TouchEventType.TOUCH_END, timestamp := now,
                 pressure := filtered, duration := duration }])
          else
            ({ s2 with isTouched := false, lastTouchState := currentTouchState },
              [{ type := TouchEventType.TOUCH_TAP, timestamp := now,
                 pressure := filtered, duration := duration },
               { type := TouchEventType.TOUCH_END, timestamp := now,
                 pressure := filtered, duration := duration }])
        else ({ s2 with lastTouchState := currentTouchState }, [])
      else (s2, [])
    else if currentTouchState = true then
      let duration := u32sub now s2.touchStartTime
      if duration ≥ s2.holdTime ∧ s2.lastTouchState = false then
        (s2, [{ type := TouchEventType.TOUCH_HOLD, timestamp := now,
                pressure := filtered, duration := duration }])
      else (s2, [])
    else (s2, [])

/-- While a touch is simply held (the detected state equals the previous state
and is pressed), `update` emits no event at all: in the continued-touch branch
the source guards the Hold emission with `!lastTouchState`, which is false
there, so the branch is dead and no Hold fires at the holdTime crossing. -/
theorem touchUpdate_no_event_while_held (s : TouchSensor) (raw : ℤ) (now : Nat)
    (h1 : s.lastTouchState = true)
    (h2 : TouchSensor.detectTouch s (TouchSensor.applyFilter s.filteredValue raw) = true) :
    (TouchSensor.update s raw now).2 = [] := by
  simp only [TouchSensor.detectTouch] at h2
  simp only [TouchSensor.update, TouchSensor.detectTouch]
  split_ifs <;> simp_all

/-- Witness for `touchUpdate_no_event_while_held`: a settled pressed sensor
polled again while pressed. -/
theorem touchUpdate_no_event_while_held_witness :
    ({ TouchSensor.initSensor 4000 with
        lastTouchState := true, isTouched := true }.lastTouchState = true) ∧
    (TouchSensor.update
      { TouchSensor.initSensor 4000 with lastTouchState := true, isTouched := true }
      4000 20).2 = [] :=
  ⟨by decide,
    touchUpdate_no_event_while_held _ 4000 20 (by decide) (by decide)⟩

/-- Fold a list of (raw, time) polls through `TouchSensor.update`, collecting
all emitted events. -/
def runTouchTrace (s : TouchSensor) (steps : List (ℤ × Nat)) :
    TouchSensor × List TouchEvent :=
  steps.foldl
    (fun acc step =>
      ((TouchSensor.update acc.1 step.1 step.2).1,
        acc.2 ++ (TouchSensor.update acc.1 step.1 step.2).2))
    (s, [])

/-- A press held firmly (raw 4000) polled every 10 ms from t=100 to t=1200. -/
def c8PressedPhase : List (ℤ × Nat) :=
  (List.range 111).map (fun i => ((4000 : ℤ), 100 + 10 * i))

/-- The pressed phase followed by release (raw 0) polled from t=1210 to
t=1260, when the filtered value decays below the release threshold. -/
def c8FullTrace : List (ℤ × Nat) :=
  c8PressedPhase ++ (List.range 6).map (fun i => ((0 : ℤ), 1210 + 10 * i))

set_option maxRecDepth 10000 in
/-- C8 (code bug): a touch that starts at t=100 and stays pressed crosses
holdTime = 1000 ms at t=1100, yet no Hold event is emitted during the whole
pressed phase (the touch is still down at t=1200 with duration 1100 ≥ 1000);
the only Hold event of the episode is emitted on release at t=1260.  The
spec (and the source's own comment at the dead branch) expects a Hold at the
instant the duration first reaches holdTime. -/
theorem touch_hold_not_emitted_at_threshold :
    ((runTouchTrace (TouchSensor.initSensor 4000) c8PressedPhase).2.filter
        (fun e => decide (e.type = TouchEventType.TOUCH_HOLD))) = [] ∧
    (runTouchTrace (TouchSensor.initSensor 4000) c8PressedPhase).1.isTouched = true ∧
    u32sub 1200
        (runTouchTrace (TouchSensor.initSensor 4000) c8PressedPhase).1.touchStartTime
      ≥ 1000 ∧
    ((runTouchTrace (TouchSensor.initSensor 4000) c8FullTrace).2.filter
        (fun e => decide (e.type = TouchEventType.TOUCH_HOLD))).map
        (fun e => e.timestamp) = [1260] := by
  decide

/-! ## Message pipeline (CommunicationProtocol.cpp)

The MD5 function, the random message-id source and the network outcomes are
external collaborators; they enter as parameters (`md5`, `msgId`) and oracles
(`httpOk`, `wsOk`, `wifiConnected`). -/

/-- `MessageType` enum from CommunicationProtocol.h. -/
inductive MessageType
  | SENSOR_DATA
  | PLANT_STATUS
  | DEVICE_CONFIG
  | ALERT_NOTIFICATION
  | COMMAND_REQUEST
  | COMMAND_RESPONSE
  | HEARTBEAT
  | ERROR_REPORT
  | FIRMWARE_UPDATE
  | SYNC_REQUEST
  | SYNC_RESPONSE
deriving DecidableEq, Repr

/-- `CommunicationChannel` enum from CommunicationProtocol.h. -/
inductive CommunicationChannel
  | HTTP_REST
  | WEBSOCKET
  | MQTT
  | BLUETOOTH
deriving DecidableEq, Repr

/-- `MessageHeader` struct from CommunicationProtocol.h. -/
structure MessageHeader where
  messageId : String
  type : MessageType
  deviceId : String
  timestamp : Nat
  version : ℤ
  checksum : String
deriving DecidableEq, Repr

/-- `QueuedMessage` struct from CommunicationProtocol.h. -/
structure QueuedMessage where
  header : MessageHeader
  payload : String
  retryCount : ℤ
  timestamp : Nat
  isPriority : Bool
deriving DecidableEq, Repr

/-- The fields of `CommunicationConfig` (CommunicationProtocol.h) that the
modelled operations read.  `maxQueueSize` is a C int used only as a queue
bound; its default is positive, so it is modelled as `Nat`. -/
structure CommunicationConfig where
  serverHost : String
  serverPort : ℤ
  apiEndpoint : String
  websocketEndpoint : String
  useSSL : Bool
  deviceToken : String
  apiKey : String
  primaryChannel : CommunicationChannel
  fallbackChannel : CommunicationChannel
  heartbeatInterval : Nat
  requestTimeout : Nat
  maxRetryAttempts : ℤ
  enableDataSync : Bool
  syncInterval : Nat
  maxQueueSize : Nat
  compressData : Bool
deriving DecidableEq, Repr

/-- `CommunicationProtocol::setDefaultConfig` (CommunicationProtocol.cpp lines
78-100). -/
def setDefaultConfig : CommunicationConfig :=
  { serverHost := "api.plantcare.com"
    serverPort := 443
    apiEndpoint := "/api/v1"
    websocketEndpoint := "/ws"
    useSSL := true
    deviceToken := ""
    apiKey := ""
    primaryChannel := CommunicationChannel.HTTP_REST
    fallbackChannel := CommunicationChannel.WEBSOCKET
    heartbeatInterval := 60000
    requestTimeout := 10000
    maxRetryAttempts := 3
    enableDataSync := true
    syncInterval := 300000
    maxQueueSize := 100
    compressData := false }

/-- The `while` loop of `CommunicationProtocol::addToQueue`
(CommunicationProtocol.cpp lines 434-441), first arm: while the joint size
exceeds `maxQueueSize` and the normal queue is nonempty, erase the normal
queue's front (the oldest non-priority message). -/
def dropOldestNormal (maxQueueSize : Nat) (pq : List QueuedMessage) :
    List QueuedMessage → List QueuedMessage
  | [] => []
  | m :: rest =>
    if pq.length + (m :: rest).length ≤ maxQueueSize then m :: rest
    else dropOldestNormal maxQueueSize pq rest

/-- Second arm of the same loop: once the normal queue is empty, the loop
erases the priority queue's front while still over bound. -/
def dropOldestPriority (maxQueueSize : Nat) : List QueuedMessage → List QueuedMessage
  | [] => []
  | m :: rest =>
    if (m :: rest).length ≤ maxQueueSize then m :: rest
    else dropOldestPriority maxQueueSize rest

/-- The whole overflow loop of `CommunicationProtocol::addToQueue`
(CommunicationProtocol.cpp lines 434-441), compiled into its two phases:
the loop never touches the priority queue before the normal queue is empty. -/
def purgeQueues (maxQueueSize : Nat) (pq nq : List QueuedMessage) :
    List QueuedMessage × List QueuedMessage :=
  let nq2 := dropOldestNormal maxQueueSize pq nq
  if pq.length + nq2.length ≤ maxQueueSize then (pq, nq2)
  else (dropOldestPriority maxQueueSize pq, nq2)

/-- `CommunicationProtocol::addToQueue` (CommunicationProtocol.cpp lines
427-442): push to the back of the matching queue, then enforce the joint
size bound. -/
def addToQueue (config : CommunicationConfig) (pq nq : List QueuedMessage)
    (message : QueuedMessage) : List QueuedMessage × List QueuedMessage :=
  if message.isPriority then purgeQueues config.maxQueueSize (pq ++ [message]) nq
  else purgeQueues config.maxQueueSize pq (nq ++ [message])

/-- `purgeQueues` leaves the queues unchanged when they are within bound. -/
theorem purgeQueues_of_le (maxQueueSize : Nat) (pq nq : List QueuedMessage)
    (h : pq.length + nq.length ≤ maxQueueSize) :
    purgeQueues maxQueueSize pq nq = (pq, nq) := by
  have hnq : dropOldestNormal maxQueueSize pq nq = nq := by
    cases nq with
    | nil => rfl
    | cons m rest => rw [dropOldestNormal, if_pos h]
  simp only [purgeQueues, hnq, h, if_pos]

/-- `purgeQueues` drops the head of the normal queue when over bound. -/
theorem purgeQueues_drop_normal (maxQueueSize : Nat) (pq : List QueuedMessage)
    (m : QueuedMessage) (rest : List QueuedMessage)
    (h : ¬(pq.length + (m :: rest).length ≤ maxQueueSize)) :
    purgeQueues maxQueueSize pq (m :: rest) = purgeQueues maxQueueSize pq rest := by
  simp only [purgeQueues]
  rw [dropOldestNormal, if_neg h]

/-- Dropping from the normal queue stops within bound or empties the queue. -/
theorem dropOldestNormal_le (maxQueueSize : Nat) (pq : List QueuedMessage) :
    ∀ nq : List QueuedMessage,
      pq.length + (dropOldestNormal maxQueueSize pq nq).length ≤ maxQueueSize ∨
        dropOldestNormal maxQueueSize pq nq = []
  | [] => Or.inr rfl
  | m :: rest => by
    rw [dropOldestNormal]
    split_ifs with h
    · exact Or.inl h
    · exact dropOldestNormal_le maxQueueSize pq rest

/-- Dropping from the priority queue always reaches the bound. -/
theorem dropOldestPriority_le (maxQueueSize : Nat) :
    ∀ pq : List QueuedMessage,
      (dropOldestPriority maxQueueSize pq).length ≤ maxQueueSize
  | [] => Nat.zero_le maxQueueSize
  | m :: rest => by
    rw [dropOldestPriority]
    split_ifs with h
    · exact h
    · exact dropOldestPriority_le maxQueueSize rest

/-- The result of `purgeQueues` always satisfies the joint bound. -/
theorem purgeQueues_le (maxQueueSize : Nat) (pq nq : List QueuedMessage) :
    (purgeQueues maxQueueSize pq nq).1.length +
      (purgeQueues maxQueueSize pq nq).2.length ≤ maxQueueSize := by
  simp only [purgeQueues]
  split_ifs with h
  · exact h
  · rcases dropOldestNormal_le maxQueueSize pq nq with h2 | h2
    · exact absurd h2 h
    · rw [h2]
      simpa using dropOldestPriority_le maxQueueSize pq

/-- C5 counterexample: with the priority queue already holding 100 priority
messages and the normal queue empty, enqueueing one more priority message
drops the oldest *priority* message, not a non-priority one (there is none):
the claim's drop rule fails when the normal queue is empty. -/
def mkMsg (i : Nat) (prio : Bool) : QueuedMessage :=
  { header :=
      { messageId := ""
        type := MessageType.SENSOR_DATA
        deviceId := ""
        timestamp := i
        version := 1
        checksum := "" }
    payload := ""
    retryCount := 0
    timestamp := i
    isPriority := prio }

/-- The priority queue filled to the default cap with priority messages. -/
def c5FullPriorityQueue : List QueuedMessage :=
  (List.range 100).map (fun i => mkMsg i true)

set_option maxRecDepth 4000 in
/-- C5 counterexample: at the cap with only priority messages, the overflow
drop removes the oldest priority message (timestamp 0), while the claim says
the removed message is the oldest non-priority one. -/
theorem addToQueue_drops_priority_when_normal_empty :
    (mkMsg 0 true).isPriority = true ∧
    (addToQueue setDefaultConfig c5FullPriorityQueue [] (mkMsg 100 true)).2 = [] ∧
    (addToQueue setDefaultConfig c5FullPriorityQueue [] (mkMsg 100 true)).1.length = 100 ∧
    (addToQueue setDefaultConfig c5FullPriorityQueue [] (mkMsg 100 true)).1.head? =
      some (mkMsg 1 true) ∧
    ¬(mkMsg 0 true) ∈ (addToQueue setDefaultConfig c5FullPriorityQueue [] (mkMsg 100 true)).1 := by
  decide

/-- C5 amended: the joint queue size never exceeds maxQueueSize (every enqueue
re-establishes the bound), and when an enqueue overflows the bound while the
normal queue is nonempty, exactly the oldest non-priority message (the normal
queue's head) is dropped; when the normal queue is empty the oldest priority
message is dropped instead (see the counterexample). -/
theorem addToQueue_cap_and_drop_rule (config : CommunicationConfig)
    (pq nq : List QueuedMessage) (m h0 : QueuedMessage) (t : List QueuedMessage)
    (hcap : pq.length + nq.length = config.maxQueueSize)
    (hnq : nq = h0 :: t) :
    (addToQueue config pq nq m).1.length + (addToQueue config pq nq m).2.length
        ≤ config.maxQueueSize ∧
    (m.isPriority = true → addToQueue config pq nq m = (pq ++ [m], t)) ∧
    (m.isPriority = false → addToQueue config pq nq m = (pq, t ++ [m])) := by
  subst hnq
  refine ⟨?_, ?_, ?_⟩
  · simp only [addToQueue]
    split_ifs <;> exact purgeQueues_le _ _ _
  · intro hp
    simp only [addToQueue, hp, if_pos]
    rw [purgeQueues_drop_normal _ _ _ _ (by simp at hcap ⊢; omega)]
    exact purgeQueues_of_le _ _ _ (by simp at hcap ⊢; omega)
  · intro hp
    simp only [addToQueue, hp, Bool.false_eq_true, if_false]
    rw [show (h0 :: t) ++ [m] = h0 :: (t ++ [m]) from rfl]
    rw [purgeQueues_drop_normal _ _ _ _ (by simp at hcap ⊢; omega)]
    exact purgeQueues_of_le _ _ _ (by simp at hcap ⊢; omega)

/-- Witness for `addToQueue_cap_and_drop_rule`: one priority and one normal
message at cap 2; the normal head is dropped. -/
theorem addToQueue_cap_and_drop_rule_witness :
    (([mkMsg 0 true] : List QueuedMessage).length +
        ([mkMsg 1 false] : List QueuedMessage).length =
      ({ setDefaultConfig with maxQueueSize := 2 } : CommunicationConfig).maxQueueSize) ∧
    (addToQueue { setDefaultConfig with maxQueueSize := 2 }
        [mkMsg 0 true] [mkMsg 1 false] (mkMsg 2 false)).1.length +
      (addToQueue { setDefaultConfig with maxQueueSize := 2 }
        [mkMsg 0 true] [mkMsg 1 false] (mkMsg 2 false)).2.length ≤ 2 :=
  ⟨by decide,
    (addToQueue_cap_and_drop_rule { setDefaultConfig with maxQueueSize := 2 }
      [mkMsg 0 true] [mkMsg 1 false] (mkMsg 2 false) (mkMsg 1 false) []
      (by decide) (by decide)).1⟩

/-- Signed reinterpretation of a u32 value: the C cast `(long)` of an
`unsigned long` on a 32-bit target. -/
def int32OfU32 (d : Nat) : ℤ :=
  if d < 2147483648 then (d : ℤ) else (d : ℤ) - 4294967296

/-- Wrap an integer into signed 32-bit range, as C negation overflow does. -/
def toInt32 (z : ℤ) : ℤ :=
  (z + 2147483648) % 4294967296 - 2147483648

/-- The Arduino `abs` macro `((x)>0?(x):-(x))` evaluated in 32-bit signed
arithmetic: negating INT32_MIN wraps back to INT32_MIN. -/
def absInt32 (x : ℤ) : ℤ :=
  if x > 0 then x else toInt32 (-x)

/-- `CommunicationProtocol::validateMessage` (CommunicationProtocol.cpp lines
548-562): the timestamp check `abs((long)(header.timestamp - currentTime)) >
300000` followed by the MD5 check of the payload; `md5` is the external MD5
collaborator behind `calculateChecksum`. -/
def validateMessage (md5 : String → String) (header : MessageHeader)
    (payload : String) (now : Nat) : Bool :=
  if absInt32 (int32OfU32 (u32sub header.timestamp now)) > 300000 then false
  else if header.checksum ≠ md5 payload then false
  else true

/-- `CommunicationProtocol::processWebSocketMessage` (CommunicationProtocol.cpp
lines 305-320): an inbound frame reaches the application's receive callback
exactly when it deserializes and validates; `parsed` is the result of the
external JSON deserialization. -/
def processWebSocketMessage (md5 : String → String)
    (parsed : Option (MessageHeader × String)) (now : Nat) : Bool :=
  match parsed with
  | some (header, payload) => validateMessage md5 header payload now
  | none => false

/-- A stand-in for the external MD5 on the single payload of the C6
counterexample. -/
def c6md5 : String → String := fun _ => "6d5"

/-- The C6 counterexample message: a valid checksum but timestamp 2^31 while
the local clock reads 0. -/
def c6header : MessageHeader :=
  { messageId := "m"
    type := MessageType.HEARTBEAT
    deviceId := "d"
    timestamp := 2147483648
    version := 1
    checksum := "6d5" }

/-- C6 counterexample: a message whose timestamp differs from the local clock
by 2^31 ms (far more than 300000) and whose checksum matches is still
delivered: the u32 difference 2^31 reinterprets as INT32_MIN, the Arduino
`abs` macro negates it back to INT32_MIN, and a negative value is never
`> 300000`, so the timestamp check passes. -/
theorem message_with_huge_skew_delivered :
    processWebSocketMessage c6md5 (some (c6header, "p")) 0 = true ∧
    c6header.checksum = c6md5 "p" ∧
    c6header.timestamp - 0 > 300000 ∧
    int32OfU32 (u32sub c6header.timestamp 0) = -2147483648 := by
  refine ⟨?_, rfl, by decide, ?_⟩ <;> decide

/-- C6 amended: an inbound message is not delivered to the receive callback
whenever its MD5 checksum does not match the payload, and whenever the signed
32-bit difference between its timestamp and the local clock has absolute value
greater than 300000 ms — except in the single case where that difference is
exactly -2^31, where the Arduino `abs` overflows to a negative value and the
message passes the timestamp check (see the counterexample). -/
theorem validateMessage_rejects (md5 : String → String) (header : MessageHeader)
    (payload : String) (now : Nat)
    (h : header.checksum ≠ md5 payload ∨
      (|int32OfU32 (u32sub header.timestamp now)| > 300000 ∧
        int32OfU32 (u32sub header.timestamp now) ≠ -2147483648)) :
    processWebSocketMessage md5 (some (header, payload)) now = false := by
  rcases h with h | ⟨habs, hne⟩
  · simp only [processWebSocketMessage, validateMessage]
    split_ifs <;> simp_all
  · have hd : u32sub header.timestamp now < 4294967296 := by
      simp only [u32sub]
      omega
    have hcond : absInt32 (int32OfU32 (u32sub header.timestamp now)) > 300000 := by
      rw [gt_iff_lt, lt_abs] at habs
      simp only [absInt32, int32OfU32, toInt32, gt_iff_lt] at habs hne ⊢
      split_ifs at habs hne ⊢ <;> omega
    simp only [processWebSocketMessage, validateMessage]
    rw [if_pos hcond]

/-- Witness for `validateMessage_rejects`: skew 301000 ms is rejected. -/
theorem validateMessage_rejects_witness :
    ((c6header.checksum ≠ c6md5 "other") ∨
      (|int32OfU32 (u32sub 301000 0)| > 300000 ∧
        int32OfU32 (u32sub 301000 0) ≠ -2147483648)) ∧
    processWebSocketMessage c6md5
      (some ({ c6header with timestamp := 301000 }, "p")) 0 = false :=
  ⟨Or.inr (by decide),
    validateMessage_rejects c6md5 { c6header with timestamp := 301000 } "p" 0
      (Or.inr (by decide))⟩

/-- `CommunicationStats` struct from CommunicationProtocol.h; the float
`averageLatency` is modelled as ℚ. -/
structure CommunicationStats where
  totalMessagesSent : Nat
  totalMessagesReceived : Nat
  failedTransmissions : Nat
  successfulTransmissions : Nat
  averageLatency : ℚ
  lastSuccessfulSync : Nat
  totalDataTransferred : Nat
  currentQueueSize : Nat
deriving DecidableEq, Repr

/-- The `CommunicationProtocol` object's state relevant to `sendMessage`:
configuration, initialization flag, WebSocket connection flag, the two queues
and the statistics. -/
structure CommunicationProtocol where
  config : CommunicationConfig
  isInitialized : Bool
  webSocketConnected : Bool
  priorityQueue : List QueuedMessage
  messageQueue : List QueuedMessage
  stats : CommunicationStats
deriving DecidableEq, Repr

/-- `CommunicationProtocol::createQueuedMessage` (CommunicationProtocol.cpp
lines 408-425); `msgId` stands for the external random `createMessageId` and
`md5` for the external MD5 behind `calculateChecksum`. -/
def createQueuedMessage (config : CommunicationConfig) (md5 : String → String)
    (msgId : String) (type : MessageType) (payload : String) (priority : Bool)
    (now : Nat) : QueuedMessage :=
  { header :=
      { messageId := msgId
        type := type
        deviceId := config.deviceToken
        timestamp := now
        version := 1
        checksum := md5 payload }
    payload := payload
    retryCount := 0
    timestamp := now
    isPriority := priority }

/-- The immediate primary-channel attempt inside
`CommunicationProtocol::sendMessage` (CommunicationProtocol.cpp lines
114-122): an HTTP POST (which itself requires Wi-Fi) or a WebSocket frame
(which requires the socket); `httpOk`/`wsOk` are the external outcomes. -/
def primaryChannelAttempt (cp : CommunicationProtocol) (wifiConnected httpOk wsOk : Bool) :
    Bool :=
  match cp.config.primaryChannel with
  | CommunicationChannel.HTTP_REST => wifiConnected && httpOk
  | CommunicationChannel.WEBSOCKET => cp.webSocketConnected && wsOk
  | CommunicationChannel.MQTT => false
  | CommunicationChannel.BLUETOOTH => false

/-- The fallback attempt inside `CommunicationProtocol::sendMessage`
(CommunicationProtocol.cpp lines 129-133): only a WebSocket fallback exists,
and only when the primary channel is not already the WebSocket. -/
def fallbackChannelAttempt (cp : CommunicationProtocol) (wsOk : Bool) : Bool :=
  if cp.config.fallbackChannel = CommunicationChannel.WEBSOCKET ∧
      cp.config.primaryChannel ≠ CommunicationChannel.WEBSOCKET then
    cp.webSocketConnected && wsOk
  else false

/-- `CommunicationProtocol::sendMessage` (CommunicationProtocol.cpp lines
102-146): returns (sent-now flag, new state). -/
def sendMessage (cp : CommunicationProtocol) (wifiConnected : Bool)
    (md5 : String → String) (msgId : String) (type : MessageType)
    (payload : String) (priority : Bool) (now : Nat) (httpOk wsOk : Bool) :
    Bool × CommunicationProtocol :=
  if ¬cp.isInitialized then (false, cp)
  else
    let message := createQueuedMessage cp.config md5 msgId type payload priority now
    let enqueued :=
      { cp with
          priorityQueue := (addToQueue cp.config cp.priorityQueue cp.messageQueue message).1
          messageQueue := (addToQueue cp.config cp.priorityQueue cp.messageQueue message).2 }
    let sent :=
      { cp with
          stats :=
            { cp.stats with
                successfulTransmissions := cp.stats.successfulTransmissions + 1
                totalMessagesSent := cp.stats.totalMessagesSent + 1 } }
    if wifiConnected then
      if primaryChannelAttempt cp wifiConnected httpOk wsOk then (true, sent)
      else if fallbackChannelAttempt cp wsOk then (true, sent)
      else (false, enqueued)
    else (false, enqueued)

/-- An empty statistics record (constructor state, CommunicationProtocol.cpp
lines 24-34). -/
def initialCommStats : CommunicationStats :=
  { totalMessagesSent := 0
    totalMessagesReceived := 0
    failedTransmissions := 0
    successfulTransmissions := 0
    averageLatency := 0
    lastSuccessfulSync := 0
    totalDataTransferred := 0
    currentQueueSize := 0 }

/-- A protocol object before `initialize()` has run. -/
def uninitializedProtocol : CommunicationProtocol :=
  { config := setDefaultConfig
    isInitialized := false
    webSocketConnected := false
    priorityQueue := []
    messageQueue := []
    stats := initialCommStats }

/-- C10 counterexample: on an uninitialized protocol with Wi-Fi down,
`sendMessage` returns false but the message is NOT appended to any queue —
against the claim that whenever Wi-Fi is not connected the message is
appended and false returned. -/
theorem sendMessage_uninitialized_not_queued :
    (sendMessage uninitializedProtocol false c6md5 "id" MessageType.SENSOR_DATA
        "x" false 0 false false).1 = false ∧
    (sendMessage uninitializedProtocol false c6md5 "id" MessageType.SENSOR_DATA
        "x" false 0 false false).2.messageQueue = [] ∧
    (sendMessage uninitializedProtocol false c6md5 "id" MessageType.SENSOR_DATA
        "x" false 0 false false).2.priorityQueue = [] := by
  refine ⟨rfl, rfl, rfl⟩

/-- C10 amended: on an *initialized* protocol, `sendMessage` returns true if
and only if Wi-Fi is connected and the message goes out immediately over the
primary channel or, on primary failure, over the WebSocket fallback; whenever
it returns false (Wi-Fi down or both immediate attempts failed) the message is
appended to the corresponding queue subject to the size cap, so a message
delivered later from the queue still reported false; on success the queues are
untouched. -/
theorem sendMessage_true_iff_sent_now (cp : CommunicationProtocol)
    (wifiConnected : Bool) (md5 : String → String) (msgId : String)
    (type : MessageType) (payload : String) (priority : Bool) (now : Nat)
    (httpOk wsOk : Bool) (hInit : cp.isInitialized = true) :
    ((sendMessage cp wifiConnected md5 msgId type payload priority now httpOk wsOk).1 =
      (wifiConnected && (primaryChannelAttempt cp wifiConnected httpOk wsOk ||
        fallbackChannelAttempt cp wsOk))) ∧
    ((sendMessage cp wifiConnected md5 msgId type payload priority now httpOk wsOk).1 = false →
      (sendMessage cp wifiConnected md5 msgId type payload priority now httpOk wsOk).2.priorityQueue =
          (addToQueue cp.config cp.priorityQueue cp.messageQueue
            (createQueuedMessage cp.config md5 msgId type payload priority now)).1 ∧
        (sendMessage cp wifiConnected md5 msgId type payload priority now httpOk wsOk).2.messageQueue =
          (addToQueue cp.config cp.priorityQueue cp.messageQueue
            (createQueuedMessage cp.config md5 msgId type payload priority now)).2) ∧
    ((sendMessage cp wifiConnected md5 msgId type payload priority now httpOk wsOk).1 = true →
      (sendMessage cp wifiConnected md5 msgId type payload priority now httpOk wsOk).2.priorityQueue =
          cp.priorityQueue ∧
        (sendMessage cp wifiConnected md5 msgId type payload priority now httpOk wsOk).2.messageQueue =
          cp.messageQueue) := by
  simp only [sendMessage, hInit]
  split_ifs <;> simp_all

/-- Witness for `sendMessage_true_iff_sent_now`: an initialized protocol with
Wi-Fi connected and a successful HTTP POST reports true. -/
theorem sendMessage_true_iff_sent_now_witness :
    ({ uninitializedProtocol with isInitialized := true } : CommunicationProtocol).isInitialized
        = true ∧
    (sendMessage { uninitializedProtocol with isInitialized := true } true c6md5 "id"
        MessageType.SENSOR_DATA "x" false 0 true false).1 =
      (true && (primaryChannelAttempt { uninitializedProtocol with isInitialized := true }
          true true false ||
        fallbackChannelAttempt { uninitializedProtocol with isInitialized := true } false)) :=
  ⟨rfl,
    (sendMessage_true_iff_sent_now { uninitializedProtocol with isInitialized := true }
      true c6md5 "id" MessageType.SENSOR_DATA "x" false 0 true false rfl).1⟩

/-! ## Checksummed persistence (StatePersistence.cpp)

The EEPROM region written by `saveCurrentState` is modelled as the list of
bytes of the `PersistentStateData` struct: eight 32-bit little-endian words
(two enum words, two times, the int health score, three float words — the
floats are only ever memcpy'd by this component, so they appear as their
32-bit patterns), one bool byte, and the three alignment padding bytes before
the trailing 32-bit checksum. -/

/-- One iteration of the loop in `StatePersistence::calculateChecksum`
(StatePersistence.cpp lines 115-125): add the byte, then rotate left by one
(`(ck << 1) | (ck >> 31)` on uint32, which is addition since the low bit of
the shifted value is zero). -/
def checksumStep (checksum b : Nat) : Nat :=
  let s := (checksum + b) % 4294967296
  s * 2 % 4294967296 + s / 2147483648

/-- `StatePersistence::calculateChecksum` (StatePersistence.cpp lines
115-125) over a byte list. -/
def calculateChecksum (bytes : List Nat) : Nat :=
  bytes.foldl checksumStep 0

/-- `StatePersistence::verifyChecksum` (StatePersistence.cpp lines 130-133). -/
def verifyChecksum (data : List Nat) (expectedChecksum : Nat) : Bool :=
  decide (calculateChecksum data = expectedChecksum)

/-- Little-endian bytes of a 32-bit word, as laid out in memory. -/
def enc32 (w : Nat) : List Nat :=
  [w % 256, w / 256 % 256, w / 65536 % 256, w / 16777216 % 256]

/-- A 32-bit word from its little-endian bytes. -/
def dec32 (bytes : List Nat) : Nat :=
  match bytes with
  | [b0, b1, b2, b3] => b0 + 256 * b1 + 65536 * b2 + 16777216 * b3
  | _ => 0

theorem dec32_enc32 (w : Nat) (h : w < 4294967296) : dec32 (enc32 w) = w := by
  simp only [dec32, enc32]
  omega

theorem checksumStep_lt (checksum b : Nat) : checksumStep checksum b < 4294967296 := by
  simp only [checksumStep]
  omega

theorem foldl_checksumStep_lt (l : List Nat) :
    ∀ ck : Nat, ck < 4294967296 → l.foldl checksumStep ck < 4294967296 := by
  induction l with
  | nil => intro ck h; exact h
  | cons b rest ih =>
    intro ck _
    exact ih (checksumStep ck b) (checksumStep_lt ck b)

theorem calculateChecksum_lt (bytes : List Nat) :
    calculateChecksum bytes < 4294967296 :=
  foldl_checksumStep_lt bytes 0 (by omega)

/-- The 32-bit rotate-left-by-one is injective on [0, 2^32). -/
theorem rol_ne (s1 s2 : Nat) (h1 : s1 < 4294967296) (h2 : s2 < 4294967296)
    (hne : s1 ≠ s2) :
    s1 * 2 % 4294967296 + s1 / 2147483648 ≠
      s2 * 2 % 4294967296 + s2 / 2147483648 := by
  have e1 : s1 * 2 % 4294967296 = s1 * 2 - 4294967296 * (s1 / 2147483648) := by omega
  have e2 : s2 * 2 % 4294967296 = s2 * 2 - 4294967296 * (s2 / 2147483648) := by omega
  have q1 : s1 / 2147483648 = 0 ∨ s1 / 2147483648 = 1 := by omega
  have q2 : s2 / 2147483648 = 0 ∨ s2 / 2147483648 = 1 := by omega
  rcases q1 with q1 | q1 <;> rcases q2 with q2 | q2 <;> rw [e1, e2, q1, q2] <;> omega

/-- The checksum step is injective in the accumulator (the rotate-left and the
modular addition are both bijections on [0, 2^32)). -/
theorem checksumStep_acc_ne (ck1 ck2 b : Nat) (h1 : ck1 < 4294967296)
    (h2 : ck2 < 4294967296) (hne : ck1 ≠ ck2) :
    checksumStep ck1 b ≠ checksumStep ck2 b := by
  have hs : (ck1 + b) % 4294967296 ≠ (ck2 + b) % 4294967296 := by omega
  simp only [checksumStep]
  exact rol_ne _ _ (Nat.mod_lt _ (by omega)) (Nat.mod_lt _ (by omega)) hs

/-- The checksum step is injective in the byte for bytes below 2^32. -/
theorem checksumStep_byte_ne (ck b1 b2 : Nat) (h1 : b1 < 4294967296)
    (h2 : b2 < 4294967296) (hne : b1 ≠ b2) :
    checksumStep ck b1 ≠ checksumStep ck b2 := by
  have hs : (ck + b1) % 4294967296 ≠ (ck + b2) % 4294967296 := by omega
  simp only [checksumStep]
  exact rol_ne _ _ (Nat.mod_lt _ (by omega)) (Nat.mod_lt _ (by omega)) hs

/-- Distinct accumulators below 2^32 stay distinct through the rest of the
fold. -/
theorem foldl_checksumStep_ne (l : List Nat) :
    ∀ ck1 ck2 : Nat, ck1 < 4294967296 → ck2 < 4294967296 → ck1 ≠ ck2 →
      l.foldl checksumStep ck1 ≠ l.foldl checksumStep ck2 := by
  induction l with
  | nil => intro ck1 ck2 _ _ hne; exact hne
  | cons b rest ih =>
    intro ck1 ck2 h1 h2 hne
    exact ih (checksumStep ck1 b) (checksumStep ck2 b)
      (checksumStep_lt ck1 b) (checksumStep_lt ck2 b)
      (checksumStep_acc_ne ck1 ck2 b h1 h2 hne)

/-- Changing exactly one byte (both values below 2^32) changes the rolling
checksum. -/
theorem calculateChecksum_ne_of_single_byte (pre suf : List Nat) (b1 b2 : Nat)
    (h1 : b1 < 4294967296) (h2 : b2 < 4294967296) (hne : b1 ≠ b2) :
    calculateChecksum (pre ++ b1 :: suf) ≠ calculateChecksum (pre ++ b2 :: suf) := by
  simp only [calculateChecksum, List.foldl_append, List.foldl_cons]
  exact foldl_checksumStep_ne suf _ _
    (checksumStep_lt _ b1) (checksumStep_lt _ b2)
    (checksumStep_byte_ne _ b1 b2 h1 h2 hne)

/-- The memory value of a `PlantState` enum (underlying int, declaration
order in StateManager.h). -/
def PlantState.code : PlantState → Nat
  | PlantState.HEALTHY => 0
  | PlantState.NEEDS_WATER => 1
  | PlantState.NEEDS_LIGHT => 2
  | PlantState.CRITICAL => 3
  | PlantState.UNKNOWN => 4

/-- Reinterpret an int as a `PlantState`, as the C struct read does; values
outside the enum range are collapsed to UNKNOWN (the C object would hold the
raw value, which no switch in the component matches). -/
def plantStateOfCode (c : Nat) : PlantState :=
  if c = 0 then PlantState.HEALTHY
  else if c = 1 then PlantState.NEEDS_WATER
  else if c = 2 then PlantState.NEEDS_LIGHT
  else if c = 3 then PlantState.CRITICAL
  else PlantState.UNKNOWN

theorem plantStateOfCode_code (s : PlantState) : plantStateOfCode s.code = s := by
  cases s <;> rfl

/-- `PersistentStateData` (StatePersistence.h) without its trailing checksum
field.  Word fields hold the 32-bit memory patterns: the two `unsigned long`
times, the `int` health score and the three `float` measurements are all only
memcpy'd by this component. -/
structure PersistentStateData where
  currentState : PlantState
  previousState : PlantState
  stateStartTime : Nat
  lastUpdateTime : Nat
  healthScore : Nat
  lastSoilMoisture : Nat
  lastLightLevel : Nat
  lastTemperature : Nat
  needsAttention : Bool
deriving DecidableEq, Repr

/-- The 36 checksummed bytes of a `PersistentStateData` value: eight
little-endian words, the bool byte and the three alignment padding bytes. -/
def encodePSD (d : PersistentStateData) : List Nat :=
  enc32 d.currentState.code ++ enc32 d.previousState.code ++
  enc32 d.stateStartTime ++ enc32 d.lastUpdateTime ++ enc32 d.healthScore ++
  enc32 d.lastSoilMoisture ++ enc32 d.lastLightLevel ++ enc32 d.lastTemperature ++
  [if d.needsAttention then 1 else 0, 0, 0, 0]

/-- Read a `PersistentStateData` back from its 36 bytes (the struct read of
`StatePersistence::readFromEEPROM`). -/
def decodePSD : List Nat → PersistentStateData
  | a0 :: a1 :: a2 :: a3 :: b0 :: b1 :: b2 :: b3 :: c0 :: c1 :: c2 :: c3 ::
      d0 :: d1 :: d2 :: d3 :: e0 :: e1 :: e2 :: e3 :: f0 :: f1 :: f2 :: f3 ::
      g0 :: g1 :: g2 :: g3 :: h0 :: h1 :: h2 :: h3 :: n0 :: _ =>
    { currentState := plantStateOfCode (dec32 [a0, a1, a2, a3])
      previousState := plantStateOfCode (dec32 [b0, b1, b2, b3])
      stateStartTime := dec32 [c0, c1, c2, c3]
      lastUpdateTime := dec32 [d0, d1, d2, d3]
      healthScore := dec32 [e0, e1, e2, e3]
      lastSoilMoisture := dec32 [f0, f1, f2, f3]
      lastLightLevel := dec32 [g0, g1, g2, g3]
      lastTemperature := dec32 [h0, h1, h2, h3]
      needsAttention := decide (n0 ≠ 0) }
  | _ =>
    { currentState := PlantState.UNKNOWN
      previousState := PlantState.UNKNOWN
      stateStartTime := 0
      lastUpdateTime := 0
      healthScore := 0
      lastSoilMoisture := 0
      lastLightLevel := 0
      lastTemperature := 0
      needsAttention := false }

/-- The `PlantStatus` struct (StateManager.h) as the byte-copying persistence
layer sees it: the `float` fields appear as their 32-bit patterns and the
`int` health score as its 32-bit word. -/
structure PlantStatusBits where
  state : PlantState
  soilMoisture : Nat
  lightLevel : Nat
  temperature : Nat
  airHumidity : Nat
  timestamp : Nat
  needsAttention : Bool
  statusMessage : String
  healthScore : Nat
deriving DecidableEq, Repr

/-- `StatePersistence::saveCurrentState` (StatePersistence.cpp lines 164-195):
the 40-byte image written at EEPROM_CURRENT_STATE_ADDR — the record (with
previousState collapsed to UNKNOWN and both time fields set to `millis()`,
here `now`) followed by its 32-bit checksum. -/
def saveCurrentState (status : PlantStatusBits) (now : Nat) : List Nat :=
  let stateData : PersistentStateData :=
    { currentState := status.state
      previousState := PlantState.UNKNOWN
      stateStartTime := now % 4294967296
      lastUpdateTime := now % 4294967296
      healthScore := status.healthScore
      lastSoilMoisture := status.soilMoisture
      lastLightLevel := status.lightLevel
      lastTemperature := status.temperature
      needsAttention := status.needsAttention }
  encodePSD stateData ++ enc32 (calculateChecksum (encodePSD stateData))

/-- `StatePersistence::loadCurrentState` (StatePersistence.cpp lines 200-233):
verify the checksum over the first 36 bytes against the stored word; on
mismatch fail (the caller never sees the record); on success rebuild a
`PlantStatus` with airHumidity 0 and an empty message. -/
def loadCurrentState (region : List Nat) : Option PlantStatusBits :=
  let stateData := decodePSD (region.take 36)
  if verifyChecksum (region.take 36) (dec32 ((region.drop 36).take 4)) then
    some
      { state := stateData.currentState
        soilMoisture := stateData.lastSoilMoisture
        lightLevel := stateData.lastLightLevel
        temperature := stateData.lastTemperature
        airHumidity := 0
        timestamp := stateData.lastUpdateTime
        needsAttention := stateData.needsAttention
        statusMessage := ""
        healthScore := stateData.healthScore }
  else none

theorem encodePSD_length (d : PersistentStateData) : (encodePSD d).length = 36 := by
  simp [encodePSD, enc32]

/-- Every byte of the encoded record is below 256. -/
theorem encodePSD_bytes_lt (d : PersistentStateData) :
    ∀ x ∈ encodePSD d, x < 256 := by
  intro x hx
  simp only [encodePSD, enc32, List.cons_append, List.nil_append] at hx
  fin_cases hx <;> first | omega | (split_ifs <;> omega)

theorem decodePSD_encodePSD (d : PersistentStateData)
    (h1 : d.stateStartTime < 4294967296) (h2 : d.lastUpdateTime < 4294967296)
    (h3 : d.healthScore < 4294967296) (h4 : d.lastSoilMoisture < 4294967296)
    (h5 : d.lastLightLevel < 4294967296) (h6 : d.lastTemperature < 4294967296) :
    decodePSD (encodePSD d) = d := by
  obtain ⟨cs, ps, sst, lut, hs, sm, ll, lt, na⟩ := d
  simp only [encodePSD, enc32, List.cons_append, List.nil_append, decodePSD] at h1 h2 h3 h4 h5 h6 ⊢
  simp only [PersistentStateData.mk.injEq]
  refine ⟨?_, ?_, by simp [dec32]; omega, by simp [dec32]; omega, by simp [dec32]; omega,
    by simp [dec32]; omega, by simp [dec32]; omega, by simp [dec32]; omega, ?_⟩
  · rw [show dec32 [PlantState.code cs % 256, PlantState.code cs / 256 % 256,
        PlantState.code cs / 65536 % 256, PlantState.code cs / 16777216 % 256] =
        dec32 (enc32 (PlantState.code cs)) from rfl]
    rw [dec32_enc32 _ (by cases cs <;> decide)]
    exact plantStateOfCode_code cs
  · rw [show dec32 [PlantState.code ps % 256, PlantState.code ps / 256 % 256,
        PlantState.code ps / 65536 % 256, PlantState.code ps / 16777216 % 256] =
        dec32 (enc32 (PlantState.code ps)) from rfl]
    rw [dec32_enc32 _ (by cases ps <;> decide)]
    exact plantStateOfCode_code ps
  · cases na <;> simp

/-- Loading the image of an encoded record succeeds and rebuilds the stored
fields (airHumidity 0, empty message). -/
theorem load_of_encode (d : PersistentStateData)
    (h1 : d.stateStartTime < 4294967296) (h2 : d.lastUpdateTime < 4294967296)
    (h3 : d.healthScore < 4294967296) (h4 : d.lastSoilMoisture < 4294967296)
    (h5 : d.lastLightLevel < 4294967296) (h6 : d.lastTemperature < 4294967296) :
    loadCurrentState (encodePSD d ++ enc32 (calculateChecksum (encodePSD d))) =
      some
        { state := d.currentState
          soilMoisture := d.lastSoilMoisture
          lightLevel := d.lastLightLevel
          temperature := d.lastTemperature
          airHumidity := 0
          timestamp := d.lastUpdateTime
          needsAttention := d.needsAttention
          statusMessage := ""
          healthScore := d.healthScore } := by
  have hlen : (encodePSD d).length = 36 := encodePSD_length d
  have htake : (encodePSD d ++ enc32 (calculateChecksum (encodePSD d))).take 36 =
      encodePSD d := List.take_left' hlen
  have hdrop : (encodePSD d ++ enc32 (calculateChecksum (encodePSD d))).drop 36 =
      enc32 (calculateChecksum (encodePSD d)) := List.drop_left' hlen
  have htake4 : (enc32 (calculateChecksum (encodePSD d))).take 4 =
      enc32 (calculateChecksum (encodePSD d)) := rfl
  simp only [loadCurrentState, htake, hdrop, htake4]
  rw [dec32_enc32 _ (calculateChecksum_lt _)]
  rw [if_pos (by simp [verifyChecksum])]
  rw [decodePSD_encodePSD d h1 h2 h3 h4 h5 h6]

/-- A four-byte word image keeps its length under a single-byte update. -/
theorem take4_set (ck v k : Nat) :
    ((enc32 ck).set k v).take 4 = (enc32 ck).set k v := by
  rw [show (4 : Nat) = ((enc32 ck).set k v).length from by simp [enc32]]
  exact List.take_length _

/-- Replacing one byte of a 32-bit word's image by a different byte changes
the decoded word. -/
theorem dec32_set_ne (ck v k : Nat) (hck : ck < 4294967296) (hv : v < 256)
    (hk : k < 4) (hne : v ≠ (enc32 ck).getD k 0) :
    dec32 ((enc32 ck).set k v) ≠ ck := by
  interval_cases k <;> simp [enc32, dec32, List.getD] at hne ⊢ <;> omega

/-- Flipping any single byte of the 40-byte image (to a different byte value)
makes the load fail: a data byte changes the recomputed checksum away from the
stored word, a checksum byte changes the stored word away from the recomputed
checksum. -/
theorem load_encode_set_byte_none (d : PersistentStateData) (j v : Nat)
    (hj : j < 40) (hv : v < 256)
    (hne : v ≠ (encodePSD d ++ enc32 (calculateChecksum (encodePSD d))).getD j 0) :
    loadCurrentState
      ((encodePSD d ++ enc32 (calculateChecksum (encodePSD d))).set j v) = none := by
  have hlen : (encodePSD d).length = 36 := encodePSD_length d
  by_cases hcase : j < 36
  · have hjD : j < (encodePSD d).length := by omega
    have hset : (encodePSD d ++ enc32 (calculateChecksum (encodePSD d))).set j v =
        (encodePSD d).set j v ++ enc32 (calculateChecksum (encodePSD d)) :=
      List.set_append_left j v hjD
    have htake : ((encodePSD d).set j v ++ enc32 (calculateChecksum (encodePSD d))).take 36 =
        (encodePSD d).set j v :=
      List.take_left' (by rw [List.length_set]; exact hlen)
    have hdrop : ((encodePSD d).set j v ++ enc32 (calculateChecksum (encodePSD d))).drop 36 =
        enc32 (calculateChecksum (encodePSD d)) :=
      List.drop_left' (by rw [List.length_set]; exact hlen)
    have hold : (encodePSD d ++ enc32 (calculateChecksum (encodePSD d))).getD j 0 =
        (encodePSD d)[j] := by
      rw [List.getD_append _ _ _ _ hjD, List.getD_eq_getElem _ _ hjD]
    have hbyteLt : (encodePSD d)[j] < 256 :=
      encodePSD_bytes_lt d _ (List.getElem_mem hjD)
    have hDdecomp : encodePSD d =
        (encodePSD d).take j ++ (encodePSD d)[j] :: (encodePSD d).drop (j + 1) := by
      rw [List.getElem_cons_drop _ _ hjD, List.take_append_drop]
    have hsetD : (encodePSD d).set j v =
        (encodePSD d).take j ++ v :: (encodePSD d).drop (j + 1) :=
      List.set_eq_take_cons_drop v hjD
    have hckne : calculateChecksum ((encodePSD d).set j v) ≠
        calculateChecksum (encodePSD d) := by
      rw [hsetD]
      conv_rhs => rw [hDdecomp]
      refine calculateChecksum_ne_of_single_byte _ _ v _ (by omega) (by omega) ?_
      rw [hold] at hne
      exact hne
    simp only [loadCurrentState, hset, htake, hdrop]
    rw [show (enc32 (calculateChecksum (encodePSD d))).take 4 =
        enc32 (calculateChecksum (encodePSD d)) from rfl]
    rw [dec32_enc32 _ (calculateChecksum_lt _)]
    rw [if_neg (by simpa [verifyChecksum] using hckne)]
  · have hge : (encodePSD d).length ≤ j := by omega
    have hck := calculateChecksum_lt (encodePSD d)
    have hset : (encodePSD d ++ enc32 (calculateChecksum (encodePSD d))).set j v =
        encodePSD d ++ (enc32 (calculateChecksum (encodePSD d))).set (j - 36) v := by
      rw [List.set_append_right j v hge, hlen]
    have hold : (encodePSD d ++ enc32 (calculateChecksum (encodePSD d))).getD j 0 =
        (enc32 (calculateChecksum (encodePSD d))).getD (j - 36) 0 := by
      rw [List.getD_append_right _ _ _ _ hge, hlen]
    rw [hold] at hne
    rw [hset]
    simp only [loadCurrentState, List.take_left' hlen, List.drop_left' hlen]
    rw [take4_set]
    have hcond : ¬(verifyChecksum (encodePSD d)
        (dec32 ((enc32 (calculateChecksum (encodePSD d))).set (j - 36) v)) = true) := by
      simp only [verifyChecksum, decide_eq_true_eq]
      exact fun habs => dec32_set_ne _ v (j - 36) hck hv (by omega) hne habs.symm
    rw [if_neg hcond]

/-- C3 combined theorem (amended): persisting a status and loading it back
returns the persisted fields — state, moisture, light, temperature,
needsAttention and healthScore — with airHumidity 0, an empty statusMessage
and the save-time stamp (airHumidity and the message are simply not stored);
and flipping any single byte of the 40-byte region to a different value is
detected by the rolling checksum: load fails and the corrupted record is never
handed back to the caller (initialize() then rewrites the region with
defaults). -/
theorem saveLoad_roundtrip_and_corruption_detected (status : PlantStatusBits)
    (now j v : Nat)
    (h1 : status.soilMoisture < 4294967296) (h2 : status.lightLevel < 4294967296)
    (h3 : status.temperature < 4294967296) (h4 : status.healthScore < 4294967296)
    (h5 : now < 4294967296) (hj : j < 40) (hv : v < 256)
    (hne : v ≠ (saveCurrentState status now).getD j 0) :
    loadCurrentState (saveCurrentState status now) =
      some
        { state := status.state
          soilMoisture := status.soilMoisture
          lightLevel := status.lightLevel
          temperature := status.temperature
          airHumidity := 0
          timestamp := now
          needsAttention := status.needsAttention
          statusMessage := ""
          healthScore := status.healthScore } ∧
    loadCurrentState ((saveCurrentState status now).set j v) = none := by
  constructor
  · have := load_of_encode
      { currentState := status.state
        previousState := PlantState.UNKNOWN
        stateStartTime := now % 4294967296
        lastUpdateTime := now % 4294967296
        healthScore := status.healthScore
        lastSoilMoisture := status.soilMoisture
        lastLightLevel := status.lightLevel
        lastTemperature := status.temperature
        needsAttention := status.needsAttention }
      (by simpa using Nat.mod_lt now (by omega)) (by simpa using Nat.mod_lt now (by omega))
      h4 h1 h2 h3
    rw [saveCurrentState, this, Nat.mod_eq_of_lt h5]
  · exact load_encode_set_byte_none _ j v hj hv hne

/-- The C3 sample status: airHumidity 50 and a nonempty message, which the
persistence layer does not store. -/
def c3Status : PlantStatusBits :=
  { state := PlantState.HEALTHY
    soilMoisture := 55
    lightLevel := 800
    temperature := 25
    airHumidity := 50
    timestamp := 7
    needsAttention := false
    statusMessage := "ok"
    healthScore := 84 }

set_option maxRecDepth 10000 in
/-- C3 counterexample: save(x) followed by load() does NOT return x: the
loaded status has airHumidity 0 (the field is not persisted — the source
comments 历史数据中没有存储) and an empty statusMessage, while x had
airHumidity 50 and message "ok". -/
theorem saveLoad_not_identity :
    loadCurrentState (saveCurrentState c3Status 123) ≠ some c3Status ∧
    (loadCurrentState (saveCurrentState c3Status 123)).map (fun s => s.airHumidity) =
      some 0 ∧
    (loadCurrentState (saveCurrentState c3Status 123)).map (fun s => s.statusMessage) =
      some "" ∧
    c3Status.airHumidity = 50 ∧ c3Status.statusMessage = "ok" := by
  refine ⟨?_, ?_, ?_, rfl, rfl⟩ <;> decide

set_option maxRecDepth 10000 in
/-- Witness for `saveLoad_roundtrip_and_corruption_detected` at the sample
status, save time 123, byte 0 flipped to 77. -/
theorem saveLoad_roundtrip_and_corruption_witness :
    ((77 : Nat) < 256 ∧ 77 ≠ (saveCurrentState c3Status 123).getD 0 0) ∧
    loadCurrentState ((saveCurrentState c3Status 123).set 0 77) = none :=
  ⟨⟨by decide, by decide⟩,
    (saveLoad_roundtrip_and_corruption_detected c3Status 123 0 77
      (by decide) (by decide) (by decide) (by decide) (by decide) (by decide)
      (by decide) (by decide)).2⟩

end PlantCare
